import Mathlib

/-!
# Upload-and-analyze front-ends: a shallow embedding

The repository holds browser scripts.  Two of them, `audio-handler.js` and
`image-handler.js`, drive the same flow: pick a file, send it to a remote
analysis endpoint, show the ranked matches, go back.  This development embeds
their handlers as pure functions on an explicit page state.

Conventions of the embedding.

* Module-level `let` variables and the parts of the page the handlers touch are
  fields of one state record per script.
* Elements that carry an `id` and a class list (the screens) live in `dom`, a list
  in document order; `getElementById` finds the first element with the id.
* Identifiers of results are JSON integers (`Int`); similarities are rationals
  (every finite double is one) and are only stored and compared; the average the
  image page computes from them in floating point is not part of the state.
* Where a handler assigns a template literal to `innerHTML`, the state holds the
  elements that markup parses to when the interpolated strings are free of markup
  characters; the definitions concerned say so.  The library page keeps the
  assigned string itself.
* What the platform decides (the outcome of `fetch`, the settling of a `play()`
  promise, the clock, `Math.random`) is an argument of the handler it reaches.
* A JavaScript exception is an `Except.error` that carries the state at the
  moment of the throw.
-/

/-! ## JavaScript helpers -/

namespace Js

/-- The expression `a || d` for a string-or-missing `a`: missing and the empty
string are falsy. -/
def orElse (a : Option String) (d : String) : String :=
  match a with
  | some x => if x = "" then d else x
  | none => d

/-- The method `s.startsWith(p)`. -/
def startsWith (s p : String) : Bool :=
  p.toList.isPrefixOf s.toList

/-- The method `s.endsWith(p)`. -/
def endsWith (s p : String) : Bool :=
  p.toList.isSuffixOf s.toList

/-- The method `s.includes(p)`: `p` occurs as a contiguous run inside `s`. -/
def includes (s p : String) : Bool :=
  s.toList.tails.any (fun t => p.toList.isPrefixOf t)

/-- The method `s.toLowerCase()`, on the ASCII letters.  The handlers only test the
result against the ASCII suffix `.mp3`, and no other character lower-cases to one
of `.`, `m`, `p`, `3`. -/
def toLowerCase (s : String) : String :=
  String.mk (s.toList.map Char.toLower)

/-- A thrown exception: its message and the state the throwing code had reached. -/
structure Thrown (σ : Type) where
  message : String
  state : σ

/-- The state an event handler leaves behind, whether it returned or threw. -/
def settle {σ : Type} : Except (Thrown σ) σ → σ
  | .ok s => s
  | .error t => t.state

end Js

/-! ## The document -/

/-- An element that is looked up by id and carries a class list. -/
structure Element where
  id : String
  classList : List String
deriving DecidableEq, Repr

/-- A browser `File`: name, byte size and MIME type. -/
structure File where
  name : String
  size : Nat
  type : String
deriving DecidableEq, Repr

namespace Dom

/-- The lookup `document.getElementById(id)`: the first element with that id. -/
def getElementById (id : String) (dom : List Element) : Option Element :=
  dom.find? (fun e => e.id == id)

/-- The call `classList.add(cls)`. -/
def classListAdd (cls : String) (l : List String) : List String :=
  if l.contains cls then l else l ++ [cls]

/-- The call `classList.remove(cls)`. -/
def classListRemove (cls : String) (l : List String) : List String :=
  l.filter (fun c => c != cls)

/-- Apply `f` to the class list of `document.getElementById(id)`, when there is such
an element. -/
def updateClassList (id : String) (f : List String → List String) :
    List Element → List Element
  | [] => []
  | e :: es =>
    if e.id = id then { e with classList := f e.classList } :: es
    else e :: updateClassList id f es

/-- The element with this id exists and has the class `active`. -/
def isActive (id : String) (dom : List Element) : Bool :=
  match getElementById id dom with
  | some e => e.classList.contains "active"
  | none => false

/-- The document has an element with this id. -/
def hasElement (id : String) (dom : List Element) : Bool :=
  (getElementById id dom).isSome

end Dom

/-! ## The response of the analysis endpoint -/

/-- The JSON body the handlers read: `{status, results, error, message}`, each field
possibly missing. -/
structure ResponseData (ρ : Type) where
  status : Option String
  results : Option (List ρ)
  error : Option String
  message : Option String

/-- How the single `fetch` of an analysis ends. -/
inductive FetchOutcome (ρ : Type) where
  /-- The call `fetch` rejects (no connection); the error has this message. -/
  | networkError (message : String)
  /-- A response arrives, but `response.json()` rejects with this message. -/
  | invalidJson (ok : Bool) (message : String)
  /-- A response arrives with `response.ok = ok` and a JSON body. -/
  | json (ok : Bool) (data : ResponseData ρ)

/-- The attempts that count as failed or zero-result: a network error, a body that
is not JSON, a response that is not OK, a status other than `ok`, a missing or an
empty result list. -/
def failedOrEmpty {ρ : Type} : FetchOutcome ρ → Bool
  | .networkError _ => true
  | .invalidJson _ _ => true
  | .json ok data => !ok || data.status != some "ok" || (data.results.getD []).isEmpty

/-! ## The audio front-end (`audio-handler.js`) -/

namespace AudioHandler

/-- One ranked match as the server sends it. -/
structure AudioResult where
  id : Int
  title : String
  artist : String
  similarity : ℚ
  audioPath : String
deriving DecidableEq, Repr

/-- The play button of a result item, with its `data-*` attributes and whether it
carries the class `playing`. -/
structure PlayButton where
  dataId : Int
  dataState : String
  dataAudio : String
  playing : Bool
deriving DecidableEq, Repr

/-- A `div.result-item` as `createResultItem` builds it: the text of `.song-title`
and `.song-artist`, the number in `.similarity-score`, and the `.play-button`. -/
structure ResultItem where
  songTitle : String
  songArtist : String
  similarity : ℚ
  button : PlayButton
deriving DecidableEq, Repr

/-- A child of `#resultsContainer`. -/
inductive Node where
  | resultItem (item : ResultItem)
  | noResultsMessage
  | errorMessage (message : String)
deriving DecidableEq, Repr

/-- A method called on `globalAudioPlayer`. -/
inductive PlayerCall where
  | pause
  | load
  | play
deriving DecidableEq, Repr

/-- The media element `globalAudioPlayer`: its `src` and the calls made on it, oldest
first. -/
structure AudioPlayer where
  src : String
  calls : List PlayerCall
deriving DecidableEq, Repr

/-- The module variables of `audio-handler.js` and the page parts its handlers
write. -/
structure AudioState where
  selectedFile : Option File
  currentPlayingId : Option Int
  globalAudioPlayer : AudioPlayer
  analysisResults : List AudioResult
  /-- Ids captured by the `then`/`catch` handlers of `play()` promises that have
  not settled yet, oldest first. -/
  pendingPlays : List Int
  dom : List Element
  /-- Messages shown through `alert`, oldest first. -/
  alerts : List String
  /-- Text of `.file-name` and `.file-size`, `style.display` of `#selectedFile`. -/
  fileName : String
  fileSize : String
  selectedFileDisplay : String
  /-- The flag `disabled` of `#analyzeBtn`; the value of the input `#audioFile`. -/
  analyzeBtnDisabled : Bool
  audioFileValue : String
  /-- Text of `.loading-text`, `style.width` of `#progressFill`. -/
  loadingText : String
  progressFillWidth : String
  /-- Text of `#matchCount`, children of `#resultsContainer`. -/
  matchCount : String
  resultsContainer : List Node
deriving DecidableEq, Repr

/-- Truthiness of a number, as in `if (currentPlayingId)`: zero is falsy. -/
def truthy (id : Int) : Bool := id != 0

/-- Print a count of hundredths as `parseFloat(x.toFixed(2))` prints it: no
trailing zeros. -/
def showHundredths (n : Nat) : String :=
  let whole := toString (n / 100)
  let frac := n % 100
  if frac = 0 then whole
  else if frac % 10 = 0 then whole ++ "." ++ toString (frac / 10)
  else if frac < 10 then whole ++ ".0" ++ toString frac
  else whole ++ "." ++ toString frac

/-- The integer part of the base-`k` logarithm of `n`, that is
`Math.floor(Math.log(n) / Math.log(k))` over exact arithmetic: how many times `n`
can be divided by `k` before it drops below `k`.  The first argument bounds the
number of divisions; `n` itself is always enough. -/
def floorLog (k : Nat) : Nat → Nat → Nat
  | 0, _ => 0
  | fuel + 1, n => if n < k then 0 else floorLog k fuel (n / k) + 1

/-- The function `formatFileSize`, over exact arithmetic: `i` is the integer part of
the base-1024 logarithm, the quotient is rounded to hundredths (ties upwards), and
`sizes[i]` prints as `undefined` past the table. -/
def formatFileSize (bytes : Nat) : String :=
  if bytes = 0 then "0 Bytes"
  else
    let k := 1024
    let sizes := ["Bytes", "KB", "MB", "GB"]
    let i := floorLog k bytes bytes
    showHundredths ((2 * 100 * bytes + k ^ i) / (2 * k ^ i)) ++ " " ++ (sizes.get? i).getD "undefined"

/-- The array `validTypes` of `processSelectedFile`. -/
def validTypes : List String := ["audio/mpeg", "audio/mp3", "audio/wav", "audio/m4a"]

/-- The function `processSelectedFile`. -/
def processSelectedFile (file : File) (s : AudioState) : AudioState :=
  if !validTypes.contains file.type && !Js.endsWith (Js.toLowerCase file.name) ".mp3" then
    { s with alerts := s.alerts ++ ["Por favor selecciona un archivo de audio válido (MP3, WAV, M4A)"] }
  else
    { s with
      selectedFile := some file
      fileName := file.name
      fileSize := formatFileSize file.size
      selectedFileDisplay := "flex"
      analyzeBtnDisabled := false }

/-- Set the state of the first play button whose `data-id` is `id`, as
`querySelector` finds it; the play buttons are the only elements of the page that
carry a `data-id`. -/
def setFirstButton (id : Int) (state : String) : List Node → List Node
  | [] => []
  | .resultItem item :: rest =>
    if item.button.dataId = id then
      .resultItem { item with
        button := { item.button with dataState := state, playing := state == "pause" } } :: rest
    else .resultItem item :: setFirstButton id state rest
  | node :: rest => node :: setFirstButton id state rest

/-- The function `updatePlayButton`. -/
def updatePlayButton (id : Int) (state : String) (s : AudioState) : AudioState :=
  { s with resultsContainer := setFirstButton id state s.resultsContainer }

/-- The function `pauseCurrentAudio`. -/
def pauseCurrentAudio (s : AudioState) : AudioState :=
  match s.currentPlayingId with
  | some id =>
    if truthy id then
      let s := { s with
        globalAudioPlayer := { s.globalAudioPlayer with calls := s.globalAudioPlayer.calls ++ [.pause] } }
      let s := updatePlayButton id "play" s
      { s with currentPlayingId := none }
    else s
  | none => s

/-- The function `playAudio`, up to the return of `play()`: the promise is pending
and its handlers hold `id`. -/
def playAudio (id : Int) (audioPath : String) (s : AudioState) : AudioState :=
  let s := pauseCurrentAudio s
  let s := { s with currentPlayingId := some id }
  let s := updatePlayButton id "loading" s
  { s with
    globalAudioPlayer := { src := audioPath, calls := s.globalAudioPlayer.calls ++ [.load, .play] }
    pendingPlays := s.pendingPlays ++ [id] }

/-- The `then` handler of `playAudio`. -/
def playFulfilled (id : Int) (s : AudioState) : AudioState :=
  updatePlayButton id "pause" s

/-- The `catch` handler of `playAudio`. -/
def playRejected (id : Int) (s : AudioState) : AudioState :=
  let s := updatePlayButton id "play" s
  { s with currentPlayingId := none }

/-- The function `toggleAudio`. -/
def toggleAudio (id : Int) (audioPath : String) (s : AudioState) : AudioState :=
  if s.currentPlayingId = some id then pauseCurrentAudio s
  else playAudio id audioPath s

/-- The function `handleAudioEnd`. -/
def handleAudioEnd (s : AudioState) : AudioState :=
  match s.currentPlayingId with
  | some id =>
    if truthy id then
      let s := updatePlayButton id "play" s
      { s with currentPlayingId := none }
    else s
  | none => s

/-- The `loadstart` listener of the player: `updatePlayButton(currentPlayingId,
'loading')`.  With nothing playing the selector `[data-id="null"]` finds no button. -/
def onLoadStart (s : AudioState) : AudioState :=
  match s.currentPlayingId with
  | some id => updatePlayButton id "loading" s
  | none => s

/-- The `canplay` listener of the player: `updatePlayButton(currentPlayingId,
'pause')`. -/
def onCanPlay (s : AudioState) : AudioState :=
  match s.currentPlayingId with
  | some id => updatePlayButton id "pause" s
  | none => s

/-- The message of the `TypeError` raised by reading `classList` of `null`. -/
def nullElementMessage : String := "document.getElementById(...) is null"

/-- The loop of `showScreen` over `querySelectorAll('.hologram-screen')`: each such
element loses the class `active`. -/
def hideScreens (dom : List Element) : List Element :=
  dom.map (fun e =>
    if e.classList.contains "hologram-screen" then
      { e with classList := Dom.classListRemove "active" e.classList }
    else e)

/-- The function `showScreen`: every `.hologram-screen` loses `active`, then the
element with the requested id gains it; a missing element throws. -/
def showScreen (screenId : String) (s : AudioState) : Except (Js.Thrown AudioState) AudioState :=
  let dom := hideScreens s.dom
  let s := { s with dom := dom }
  match Dom.getElementById screenId dom with
  | some _ => .ok { s with dom := Dom.updateClassList screenId (Dom.classListAdd "active") dom }
  | none => .error ⟨nullElementMessage, s⟩

/-- The steps of `simulateAnalysisProgress`: text and progress. -/
def progressSteps : List (String × Nat) :=
  [("Cargando archivo de audio...", 20), ("Enviando a servidor...", 40),
   ("Extrayendo características MFCC...", 60), ("Comparando con base de datos...", 80)]

/-- The function `simulateAnalysisProgress`, run to its end. -/
def simulateAnalysisProgress (s : AudioState) : AudioState :=
  let s := progressSteps.foldl
    (fun s step => { s with loadingText := step.1, progressFillWidth := toString step.2 ++ "%" }) s
  { s with loadingText := "Procesando resultados...", progressFillWidth := "90%" }

/-- The function `createResultItem`.  The code assigns one template literal to
`item.innerHTML`, with title, artist, similarity, id and URL interpolated without
escaping, and then looks the button up with `querySelector`.  The record is the
element that markup parses to when title and artist contain neither `<` nor `&`
and the URL contains neither `"` nor `&`; for other strings the markup parses to
something else (no button, or more than one), which the record does not show. -/
def createResultItem (result : AudioResult) : ResultItem :=
  let audioUrl := "http://localhost:5000" ++ result.audioPath
  { songTitle := result.title
    songArtist := result.artist
    similarity := result.similarity
    button := { dataId := result.id, dataState := "play", dataAudio := audioUrl, playing := false } }

/-- The function `showNoResults`. -/
def showNoResults (s : AudioState) : Except (Js.Thrown AudioState) AudioState := do
  let s ← showScreen "resultsScreen" s
  pure { s with matchCount := "0", resultsContainer := [.noResultsMessage] }

/-- The function `showError`; the node records the message, which the code
interpolates into the markup of the error block. -/
def showError (message : String) (s : AudioState) : Except (Js.Thrown AudioState) AudioState := do
  let s ← showScreen "resultsScreen" s
  pure { s with matchCount := "0", resultsContainer := [.errorMessage message] }

/-- The function `showResults`. -/
def showResults (s : AudioState) : Except (Js.Thrown AudioState) AudioState := do
  let s ← showScreen "resultsScreen" s
  let s := { s with matchCount := toString s.analysisResults.length, resultsContainer := [] }
  if s.analysisResults.length = 0 then showNoResults s
  else
    pure (s.analysisResults.foldl
      (fun s result =>
        { s with resultsContainer := s.resultsContainer ++ [.resultItem (createResultItem result)] })
      s)

/-- The function `resetToUpload`. -/
def resetToUpload (s : AudioState) : Except (Js.Thrown AudioState) AudioState :=
  let s := pauseCurrentAudio s
  let s := { s with
    selectedFile := none
    audioFileValue := ""
    selectedFileDisplay := "none"
    analyzeBtnDisabled := true
    analysisResults := [] }
  showScreen "uploadScreen" s

/-- The function `analyzeAudioSimilarity`, given how the request ends: the list it
returns (possibly missing) or the message of the error it throws. -/
def analyzeAudioSimilarity (outcome : FetchOutcome AudioResult) (s : AudioState) :
    Except String (AudioState × Option (List AudioResult)) :=
  match outcome with
  | .networkError message => .error message
  | .invalidJson _ message => .error message
  | .json false errorData => .error (Js.orElse errorData.error "Error en el análisis")
  | .json true data =>
    if data.status = some "ok" then
      .ok ({ s with progressFillWidth := "100%", loadingText := "Análisis completado!" }, data.results)
    else .error (Js.orElse data.message "Error desconocido en el servidor")

/-- The `try`/`catch` of `startAnalysis`, from the moment the request has been sent
to the end of the handler. -/
def startAnalysisDeliver (outcome : FetchOutcome AudioResult) (s : AudioState) :
    Except (Js.Thrown AudioState) AudioState :=
  let attempt : Except (Js.Thrown AudioState) AudioState :=
    match analyzeAudioSimilarity outcome s with
    | .error message => .error ⟨message, s⟩
    | .ok (s, some (r :: rs)) => showResults { s with analysisResults := r :: rs }
    | .ok (s, _) => showNoResults s
  match attempt with
  | .ok s => .ok s
  | .error thrown => showError (Js.orElse (some thrown.message) "Error al analizar el audio") thrown.state

/-- The function `startAnalysis`, up to the sending of the request. -/
def startAnalysisBegin (s : AudioState) : Except (Js.Thrown AudioState) AudioState := do
  let s ← showScreen "loadingScreen" s
  pure (simulateAnalysisProgress s)

/-- The function `startAnalysis`, run without interruption. -/
def startAnalysis (outcome : FetchOutcome AudioResult) (s : AudioState) :
    Except (Js.Thrown AudioState) AudioState :=
  if s.selectedFile.isNone then .ok s
  else do
    let s ← startAnalysisBegin s
    startAnalysisDeliver outcome s

/-- Modelled from the spec: the page markup is not part of the sources.  The page
as loaded has the three screens the script names, `Upload` active, no file selected
and the analyze action disabled. -/
def initialState : AudioState :=
  { selectedFile := none
    currentPlayingId := none
    globalAudioPlayer := { src := "", calls := [] }
    analysisResults := []
    pendingPlays := []
    dom := [⟨"uploadScreen", ["hologram-screen", "active"]⟩,
            ⟨"loadingScreen", ["hologram-screen"]⟩,
            ⟨"resultsScreen", ["hologram-screen"]⟩]
    alerts := []
    fileName := ""
    fileSize := ""
    selectedFileDisplay := "none"
    analyzeBtnDisabled := true
    audioFileValue := ""
    loadingText := ""
    progressFillWidth := "0%"
    matchCount := "0"
    resultsContainer := [] }

/-- The play buttons on the page, in document order. -/
def buttons (s : AudioState) : List PlayButton :=
  s.resultsContainer.filterMap (fun n =>
    match n with
    | .resultItem item => some item.button
    | _ => none)

/-- The button `querySelector` finds for `data-id = id`. -/
def buttonOf (id : Int) (s : AudioState) : Option PlayButton :=
  (buttons s).find? (fun b => b.dataId == id)

/-- The events that drive playback: a call of `toggleAudio`, the `ended` event of
the player, the back button, and the settling of the `k`-th pending `play()`
promise. -/
inductive Event where
  | toggleAudio (id : Int) (audioPath : String)
  | handleAudioEnd
  | resetToUpload
  | playSettles (k : Nat) (fulfilled : Bool)
deriving DecidableEq, Repr

/-- The `k`-th pending `play()` promise settles: its handler runs with the id it
captured. -/
def settlePlay (k : Nat) (fulfilled : Bool) (s : AudioState) : AudioState :=
  match s.pendingPlays.get? k with
  | none => s
  | some id =>
    let s := { s with pendingPlays := s.pendingPlays.eraseIdx k }
    if fulfilled then playFulfilled id s else playRejected id s

/-- One event, handled to the end. -/
def step (e : Event) (s : AudioState) : AudioState :=
  match e with
  | .toggleAudio id audioPath => toggleAudio id audioPath s
  | .handleAudioEnd => handleAudioEnd s
  | .resetToUpload => Js.settle (resetToUpload s)
  | .playSettles k fulfilled => settlePlay k fulfilled s

/-- A sequence of events, oldest first. -/
def run (events : List Event) (s : AudioState) : AudioState :=
  events.foldl (fun s e => step e s) s

/-- At most one play button is out of the state `play`, and such a button belongs
to `currentPlayingId`. -/
def atMostOnePlaying (s : AudioState) : Bool :=
  let busy := (buttons s).filter (fun b => b.dataState != "play")
  decide (busy.length ≤ 1) && busy.all (fun b => s.currentPlayingId == some b.dataId)

end AudioHandler


/-! ## The image front-end (`image-handler.js`) -/

namespace ImageHandler

/-- One ranked match as the server sends it. -/
structure ImageResult where
  id : Int
  name : String
  similarity : ℚ
  imagePath : String
deriving DecidableEq, Repr

/-- The constant `mockResults`. -/
def mockResults : List ImageResult :=
  [ { id := 1, name := "Messi Portrait", similarity := 952 / 10,
      imagePath := "https://via.placeholder.com/200x200/0066ff/fff?text=Messi+1" },
    { id := 2, name := "Messi Action", similarity := 897 / 10,
      imagePath := "https://via.placeholder.com/200x200/ff6600/fff?text=Messi+2" },
    { id := 3, name := "Messi Celebration", similarity := 873 / 10,
      imagePath := "https://via.placeholder.com/200x200/00ff66/fff?text=Messi+3" } ]

/-- The card `displayBestMatch` writes into `#bestMatch`: the `src` and `alt` of the
image (`alt` and the heading carry the same name), the class and colour of the
confidence bar, and the similarity. -/
structure BestMatchCard where
  imagePath : String
  name : String
  confidenceClass : String
  confidenceColor : String
  similarity : ℚ
deriving DecidableEq, Repr

/-- A child of `#matchesList`. -/
inductive MatchNode where
  | matchItem (imagePath : String) (name : String) (similarity : ℚ)
  | noAdditionalMessage
deriving DecidableEq, Repr

/-- The module variables of `image-handler.js` and the page parts its handlers
write. -/
structure ImageState where
  selectedFile : Option File
  /-- The variable `analysisResults`; `none` when the response had no `results`. -/
  analysisResults : Option (List ImageResult)
  processingStartTime : Int
  dom : List Element
  /-- Text of `#errorMessage`. -/
  errorMessage : String
  /-- The `style.display` of `#imagePreview` and `#uploadArea`, the value of the
  input `#imageFile`, the `src` of `#previewImg` and `#heroImage`. -/
  imagePreviewDisplay : String
  uploadAreaDisplay : String
  imageFileValue : String
  previewImgSrc : String
  heroImageSrc : String
  /-- The `style.width` of `#progressFill`, text of `#progressText`. -/
  progressFillWidth : String
  progressText : String
  /-- Content of `#bestMatch`, when it has been written. -/
  bestMatch : Option BestMatchCard
  /-- Text of `#totalImages`, `#processingTime`, `#featuresCount`. -/
  totalImages : String
  processingTime : String
  featuresCount : String
  /-- Children of `#matchesList`. -/
  matchesList : List MatchNode
deriving DecidableEq, Repr

/-- The array `screens` of `showScreen`. -/
def screens : List String :=
  ["uploadSection", "loadingSection", "resultsSection", "errorSection"]

/-- The function `showScreen`. -/
def showScreen (screenId : String) (s : ImageState) : ImageState :=
  let dom := screens.foldl
    (fun dom id => Dom.updateClassList id (Dom.classListRemove "active") dom) s.dom
  { s with dom := Dom.updateClassList screenId (Dom.classListAdd "active") dom }

/-- The function `showError`. -/
def showError (message : String) (s : ImageState) : ImageState :=
  showScreen "errorSection" { s with errorMessage := message }

/-- The function `processSelectedFile`, up to the start of the file read. -/
def processSelectedFile (file : File) (s : ImageState) : ImageState :=
  if !Js.startsWith file.type "image/" then
    showError "Por favor selecciona un archivo de imagen válido" s
  else if file.size > 16 * 1024 * 1024 then
    showError "El archivo es demasiado grande. Máximo 16MB" s
  else { s with selectedFile := some file }

/-- The handler `reader.onload` of `processSelectedFile`; the argument is the data
URL the reader produced. -/
def readerOnload (result : String) (s : ImageState) : ImageState :=
  { s with
    previewImgSrc := result
    heroImageSrc := result
    imagePreviewDisplay := "block"
    uploadAreaDisplay := "none" }

/-- The function `removeImage`. -/
def removeImage (s : ImageState) : ImageState :=
  { s with
    selectedFile := none
    imagePreviewDisplay := "none"
    uploadAreaDisplay := "block"
    imageFileValue := ""
    heroImageSrc := "https://via.placeholder.com/350x450/000/fff?text=Imagen+de+Muestra" }

/-- The function `getConfidenceClass`. -/
def getConfidenceClass (similarity : ℚ) : String :=
  if similarity ≥ 80 then "confidence-high"
  else if similarity ≥ 60 then "confidence-medium"
  else "confidence-low"

/-- The function `getConfidenceColor`. -/
def getConfidenceColor (similarity : ℚ) : String :=
  if similarity ≥ 80 then "var(--success-green)"
  else if similarity ≥ 60 then "var(--warning-yellow)"
  else "var(--accent-red)"

/-- The function `displayBestMatch`.  The code assigns one template literal to
`bestMatchDiv.innerHTML`, with path, name and similarity interpolated without
escaping.  The record is the card that markup parses to when the name contains
none of `<`, `&`, `"` and the path neither `"` nor `&`; for other strings the
markup parses to something else, which the record does not show. -/
def displayBestMatch (bestMatch : ImageResult) (s : ImageState) : ImageState :=
  let card : BestMatchCard :=
    { imagePath := bestMatch.imagePath
      name := bestMatch.name
      confidenceClass := getConfidenceClass bestMatch.similarity
      confidenceColor := getConfidenceColor bestMatch.similarity
      similarity := bestMatch.similarity }
  { s with bestMatch := some card }

/-- The function `displayStatistics`; `random` is the value of
`Math.floor(Math.random() * 500)`.  The text of `#avgSimilarity` is the outcome of
additions and a division in floating point, printed by `toFixed(1)`: the state does
not carry it. -/
def displayStatistics (results : List ImageResult) (processingTime : Int) (random : Nat)
    (s : ImageState) : ImageState :=
  let totalImages := results.length
  { s with
    totalImages := toString totalImages
    processingTime := toString processingTime ++ "ms"
    featuresCount := toString (random + 200) }

/-- The function `displayAdditionalMatches`.  The code joins one template literal
per match into a single string and assigns it to `matchesList.innerHTML`, with
path, name and similarity interpolated without escaping.  The list is the
children that string parses to when no name contains `<`, `&` or `"` and no path
`"` or `&`; for other strings the string parses to something else (markup in one
match can swallow the matches after it), which the list does not show. -/
def displayAdditionalMatches (theMatches : List ImageResult) (s : ImageState) : ImageState :=
  if theMatches.length = 0 then { s with matchesList := [.noAdditionalMessage] }
  else
    { s with matchesList := theMatches.map (fun m => .matchItem m.imagePath m.name m.similarity) }

/-- The function `showResults`; `now` is the value of `Date.now()`. -/
def showResults (now : Int) (random : Nat) (s : ImageState) : ImageState :=
  match s.analysisResults with
  | none => showError "No se encontraron imágenes similares" s
  | some [] => showError "No se encontraron imágenes similares" s
  | some (best :: rest) =>
    let s := showScreen "resultsSection" s
    let processingTime := now - s.processingStartTime
    let s := displayBestMatch best s
    let s := displayStatistics (best :: rest) processingTime random s
    displayAdditionalMatches rest s

/-- The function `simulateAnalysisProgress`, run to its end. -/
def simulateAnalysisProgress (s : ImageState) : ImageState :=
  (List.range 21).foldl
    (fun s j =>
      { s with progressFillWidth := toString (5 * j) ++ "%", progressText := toString (5 * j) ++ "%" })
    s

/-- The function `resetToUpload`. -/
def resetToUpload (s : ImageState) : ImageState :=
  let s := showScreen "uploadSection" s
  let s := removeImage s
  { s with analysisResults := some [] }

/-- The request inside the `try` of `startAnalysis`, given how it ends: the value
it assigns to `analysisResults` (possibly missing) or the message of the error it
throws. -/
def fetchAnalysis (outcome : FetchOutcome ImageResult) : Except String (Option (List ImageResult)) :=
  match outcome with
  | .networkError message => .error message
  | .invalidJson _ message => .error message
  | .json ok data =>
    if ok && data.status == some "ok" then .ok data.results
    else .error (Js.orElse data.error (Js.orElse data.message "Error desconocido"))

/-- The `try`/`catch` of `startAnalysis`, from the moment the request has been sent
to the end of the handler. -/
def startAnalysisDeliver (outcome : FetchOutcome ImageResult) (now : Int) (random : Nat)
    (s : ImageState) : ImageState :=
  match fetchAnalysis outcome with
  | .ok results => showResults now random { s with analysisResults := results }
  | .error message =>
    if Js.includes message "fetch" then
      showResults now random { s with analysisResults := some mockResults }
    else showError ("Error en el análisis: " ++ message) s

/-- The function `startAnalysis`, up to the sending of the request; `start` is the
value of `Date.now()`. -/
def startAnalysisBegin (start : Int) (s : ImageState) : ImageState :=
  let s := { s with processingStartTime := start }
  let s := showScreen "loadingSection" s
  simulateAnalysisProgress s

/-- The function `startAnalysis`, run without interruption. -/
def startAnalysis (start : Int) (outcome : FetchOutcome ImageResult) (now : Int) (random : Nat)
    (s : ImageState) : ImageState :=
  if s.selectedFile.isNone then showError "Por favor selecciona una imagen primero" s
  else startAnalysisDeliver outcome now random (startAnalysisBegin start s)

/-- Modelled from the spec: the page markup is not part of the sources.  The page
as loaded has the four screens the script names, `Upload` active, and no file
selected. -/
def initialState : ImageState :=
  { selectedFile := none
    analysisResults := some []
    processingStartTime := 0
    dom := [⟨"uploadSection", ["active"]⟩, ⟨"loadingSection", []⟩,
            ⟨"resultsSection", []⟩, ⟨"errorSection", []⟩]
    errorMessage := ""
    imagePreviewDisplay := "none"
    uploadAreaDisplay := "block"
    imageFileValue := ""
    previewImgSrc := ""
    heroImageSrc := ""
    progressFillWidth := "0%"
    progressText := "0%"
    bestMatch := none
    totalImages := ""
    processingTime := ""
    featuresCount := ""
    matchesList := [] }

/-- The matches shown below the best one, in document order. -/
def additionalMatches (s : ImageState) : List (String × String × ℚ) :=
  s.matchesList.filterMap (fun n =>
    match n with
    | .matchItem imagePath name similarity => some (imagePath, name, similarity)
    | .noAdditionalMessage => none)

end ImageHandler


/-! ## Screens on show and the flow of the image page -/

namespace AudioHandler

/-- The element `document.getElementById(id)` exists and is a `.hologram-screen`. -/
def isScreen (id : String) (dom : List Element) : Bool :=
  match Dom.getElementById id dom with
  | some e => e.classList.contains "hologram-screen"
  | none => false

/-- The `.hologram-screen` elements that carry the class `active`, in document
order. -/
def activeScreens (dom : List Element) : List Element :=
  dom.filter (fun e => e.classList.contains "hologram-screen" && e.classList.contains "active")

end AudioHandler

namespace ImageHandler

/-- Those of the four screens that are active. -/
def activeScreens (dom : List Element) : List String :=
  screens.filter (fun id => Dom.isActive id dom)

/-- The screen on show, when exactly one of the four is active. -/
def currentScreen (dom : List Element) : Option String :=
  match activeScreens dom with
  | [id] => some id
  | _ => none

/-- The function `startAnalysis` up to the sending of the request, with its guard:
the page it leaves, and whether a request has been sent. -/
def startAnalysisSend (start : Int) (s : ImageState) : ImageState × Bool :=
  if s.selectedFile.isNone then (showError "Por favor selecciona una imagen primero" s, false)
  else (startAnalysisBegin start s, true)

/-- The page together with the number of requests that have been sent and not yet
answered. -/
structure Flow where
  page : ImageState
  inFlight : Nat
deriving DecidableEq, Repr

/-- The events `initializeImageInterface` wires handlers to, and the arrival of a
response.  The handlers do not look at the screen on show, `startAnalysis` and
`resetToUpload` are also exported as `window.imageHandler`, and a request that has
been sent is never aborted: a user event can happen on every screen, and a
response can arrive on every screen while its request is in flight. -/
inductive FlowEvent where
  /-- The input `#imageFile` changes, or a file is dropped on `#uploadArea`. -/
  | selectFile (file : File)
  /-- A click on `#removeBtn`. -/
  | remove
  /-- A click on `#analyzeBtn`; `start` is the value of `Date.now()`. -/
  | analyze (start : Int)
  /-- A click on `#retryBtn`. -/
  | retry (start : Int)
  /-- A click on `#backBtn` or `#backToUploadBtn`. -/
  | reset
  /-- The request that was sent first is answered. -/
  | completion (outcome : FetchOutcome ImageResult) (now : Int) (random : Nat)

/-- One event, handled up to the next point at which the handler waits. -/
def Flow.step (e : FlowEvent) (f : Flow) : Flow :=
  match e with
  | .selectFile file => { f with page := processSelectedFile file f.page }
  | .remove => { f with page := removeImage f.page }
  | .analyze start =>
    { page := (startAnalysisSend start f.page).1
      inFlight := if (startAnalysisSend start f.page).2 then f.inFlight + 1 else f.inFlight }
  | .retry start =>
    { page := (startAnalysisSend start f.page).1
      inFlight := if (startAnalysisSend start f.page).2 then f.inFlight + 1 else f.inFlight }
  | .reset => { f with page := resetToUpload f.page }
  | .completion outcome now random =>
    { page := startAnalysisDeliver outcome now random f.page, inFlight := f.inFlight - 1 }

/-- The five changes of screen of the state diagram `Upload → Loading →
{Results | Error}`, `Results → Upload`, `Error → Upload`. -/
def diagramTransitions : List (String × String) :=
  [("uploadSection", "loadingSection"), ("loadingSection", "resultsSection"),
   ("loadingSection", "errorSection"), ("resultsSection", "uploadSection"),
   ("errorSection", "uploadSection")]

/-- The page has the four screens and `a` is the one on show. -/
def Flow.onScreen (f : Flow) (a : String) : Prop :=
  (∀ id ∈ screens, Dom.hasElement id f.page.dom = true) ∧
  currentScreen f.page.dom = some a

/-- The page as loaded, no request in flight. -/
def initialFlow : Flow := { page := initialState, inFlight := 0 }

/-- The rank of a confidence class: low, medium, high. -/
def tierRank (confidenceClass : String) : Nat :=
  if confidenceClass = "confidence-high" then 2
  else if confidenceClass = "confidence-medium" then 1
  else 0

end ImageHandler

/-! ## The library page (`bilbiopage/static/script.js`) -/

namespace BiblioPage

/-- One search result as the server sends it. -/
structure Resultado where
  id : Int
  titulo : String
  imagen : String
deriving DecidableEq, Repr

/-- A `div` appended to `#resultados-lista`: its `className`, the markup assigned to
its `innerHTML`, character for character, and the document its `onclick` opens
(`/documento/` followed by the id). -/
structure ResultadoItem where
  className : String
  innerHTML : String
  documento : Int
deriving DecidableEq, Repr

/-- A button of `#paginacion`. -/
inductive BotonPagina where
  | anterior
  | siguiente
deriving DecidableEq, Repr

/-- A method called on the video element. -/
inductive VideoCall where
  | pause
  | load
  | play
deriving DecidableEq, Repr

/-- The module variables of `script.js` and the page parts its handlers write. -/
structure PageState where
  resultados : List Resultado
  paginaActual : Int
  /-- Children of `#resultados-lista` and of `#paginacion`. -/
  lista : List ResultadoItem
  paginacion : List BotonPagina
  /-- The `style.display` of `#buscador-section` and `#resultados-section`. -/
  buscadorDisplay : String
  resultadosDisplay : String
  /-- The attribute `src` of `#video-biblioteca` and the calls made on it. -/
  videoSrc : String
  videoCalls : List VideoCall
deriving DecidableEq, Repr

/-- The constant `resultadosPorPagina`. -/
def resultadosPorPagina : Nat := 5

/-- The `div` one pass of the loop of `mostrarResultados` builds for `res`: the
template literal is assigned to `innerHTML` with `res.imagen` and `res.titulo`
interpolated as they are, without escaping. -/
def crearItem (res : Resultado) : ResultadoItem :=
  { className := "resultado-item"
    innerHTML := "<img src=\"" ++ res.imagen ++ "\" title=\"" ++ res.titulo ++
      "\" style=\"width:100px;cursor:pointer;\">"
    documento := res.id }

/-- The read `resultados[i]`: `undefined` outside the array. -/
def resultadoAt (resultados : List Resultado) (i : Int) : Option Resultado :=
  if i < 0 then none else resultados.get? i.toNat

/-- The values `i` takes in `for (let i = inicio; i < fin; i++)`. -/
def indices (inicio fin : Int) : List Int :=
  (List.range (fin - inicio).toNat).map (fun (k : Nat) => inicio + (k : Int))

/-- The value `Math.ceil(resultados.length / resultadosPorPagina)`. -/
def totalPaginas (s : PageState) : Nat :=
  (s.resultados.length + resultadosPorPagina - 1) / resultadosPorPagina

/-- The function `mostrarPaginacion`. -/
def mostrarPaginacion (s : PageState) : PageState :=
  let s := { s with paginacion := [] }
  if totalPaginas s ≤ 1 then s
  else
    let s := if s.paginaActual > 1 then { s with paginacion := s.paginacion ++ [.anterior] } else s
    if s.paginaActual < totalPaginas s then { s with paginacion := s.paginacion ++ [.siguiente] }
    else s

/-- One pass of the loop of `mostrarResultados`: reading a field of `undefined`
throws. -/
def renderOne (s : PageState) (i : Int) : Except (Js.Thrown PageState) PageState :=
  match resultadoAt s.resultados i with
  | some res => .ok { s with lista := s.lista ++ [crearItem res] }
  | none => .error ⟨"res is undefined", s⟩

/-- The loop of `mostrarResultados` over the given values of `i`. -/
def renderLoop : List Int → PageState → Except (Js.Thrown PageState) PageState
  | [], s => .ok s
  | i :: rest, s =>
    match renderOne s i with
    | .ok s => renderLoop rest s
    | .error thrown => .error thrown

/-- The function `mostrarResultados`. -/
def mostrarResultados (s : PageState) : Except (Js.Thrown PageState) PageState :=
  let s := { s with lista := [] }
  let inicio : Int := (s.paginaActual - 1) * resultadosPorPagina
  let fin : Int := min (inicio + resultadosPorPagina) s.resultados.length
  match renderLoop (indices inicio fin) s with
  | .ok s => .ok (mostrarPaginacion s)
  | .error thrown => .error thrown

/-- The function `cambiarVideo`. -/
def cambiarVideo (src : String) (s : PageState) : PageState :=
  { s with videoSrc := src, videoCalls := s.videoCalls ++ [.pause, .load, .play] }

/-- The last `then` of the search: the response `data` has arrived. -/
def busquedaCompleta (data : List Resultado) (s : PageState) :
    Except (Js.Thrown PageState) PageState :=
  let s := { s with resultados := data, paginaActual := 1 }
  match mostrarResultados s with
  | .ok s =>
    let s := cambiarVideo "/static/video/resultado.mp4" s
    .ok { s with buscadorDisplay := "none", resultadosDisplay := "block" }
  | .error thrown => .error thrown

/-- The handler of `#btn-nueva-busqueda`. -/
def nuevaBusqueda (s : PageState) : PageState :=
  cambiarVideo "/static/video/videomenu.mp4"
    { s with buscadorDisplay := "block", resultadosDisplay := "none" }

/-- The `onclick` of a pagination button. -/
def clickBoton (b : BotonPagina) (s : PageState) : Except (Js.Thrown PageState) PageState :=
  match b with
  | .anterior => mostrarResultados { s with paginaActual := s.paginaActual - 1 }
  | .siguiente => mostrarResultados { s with paginaActual := s.paginaActual + 1 }

/-- The results page `p` shows: the list `mostrarResultados` leaves when
`paginaActual` is `p`. -/
def paginaMostrada (s : PageState) (p : Int) : List ResultadoItem :=
  (Js.settle (mostrarResultados { s with paginaActual := p })).lista

/-- The page number is between 1 and the number of pages (or 1 when there is no
page), and the pagination buttons are those drawn for it. -/
def paginaValida (s : PageState) : Prop :=
  1 ≤ s.paginaActual ∧ s.paginaActual ≤ max 1 (totalPaginas s) ∧
  s.paginacion = (mostrarPaginacion s).paginacion

/-- Modelled from the spec: the page markup is not part of the sources.  The page
as loaded: the module variables at their initial values, the search section on
show. -/
def initialState : PageState :=
  { resultados := []
    paginaActual := 1
    lista := []
    paginacion := []
    buscadorDisplay := "block"
    resultadosDisplay := "none"
    videoSrc := "/static/video/videomenu.mp4"
    videoCalls := [] }

/-- Twelve results, numbered from 1. -/
def doceResultados : List Resultado :=
  (List.range 12).map
    (fun (k : Nat) => { id := (k : Int) + 1, titulo := "Libro", imagen := "/static/img.png" })

end BiblioPage

/-! ## Concrete pages used in the evaluations below -/

namespace AudioHandler

/-- A file the audio page accepts. -/
def sampleFile : File := ⟨"song.mp3", 4096, "audio/mpeg"⟩

/-- A server result with the given id. -/
def sampleResult (id : Int) : AudioResult :=
  { id := id, title := "Song", artist := "Artist", similarity := 90, audioPath := "/audio/song.mp3" }

/-- The URL `createResultItem` gives the button of `sampleResult`. -/
def sampleUrl : String := "http://localhost:5000/audio/song.mp3"

/-- A successful response carrying these results. -/
def okResponse (results : List AudioResult) : FetchOutcome AudioResult :=
  .json true { status := some "ok", results := some results, error := none, message := none }

/-- The page after the user picked `sampleFile`, pressed analyze, and the server
answered with these results. -/
def resultsShown (results : List AudioResult) : AudioState :=
  Js.settle (startAnalysis (okResponse results) (processSelectedFile sampleFile initialState))

/-- Results with ids 0 and 1 are shown and the item with id 0 is playing: its button
was clicked and the `play()` promise fulfilled. -/
def playingZero : AudioState :=
  run [.toggleAudio 0 sampleUrl, .playSettles 0 true] (resultsShown [sampleResult 0, sampleResult 1])

/-- The buttons of items 1 and 2 are clicked in turn while the first `play()` promise
is still pending; that promise then rejects, as it does when `pause()` and `load()`
interrupt it. -/
def interruptedPlay : List Event :=
  [.toggleAudio 1 sampleUrl, .toggleAudio 2 sampleUrl, .playSettles 0 false]

/-- A file is selected, analyze is pressed, and `resetToUpload` runs while the
request is in flight. -/
def resetInFlight : AudioState :=
  Js.settle (resetToUpload
    (Js.settle (startAnalysisBegin (processSelectedFile sampleFile initialState))))

/-- The response to the abandoned request then arrives: status `ok`, two results. -/
def staleDelivery : AudioState :=
  Js.settle (startAnalysisDeliver (okResponse [sampleResult 1, sampleResult 2]) resetInFlight)

end AudioHandler

namespace ImageHandler

/-- A file the image page accepts. -/
def sampleFile : File := ⟨"photo.png", 2048, "image/png"⟩

/-- The page after the user picked `sampleFile`. -/
def fileChosen : ImageState := processSelectedFile sampleFile initialState

/-- A file the image page rejects. -/
def textFile : File := ⟨"notas.txt", 12, "text/plain"⟩

/-- The Error screen with a file selected: `sampleFile` was chosen, then
`textFile` was rejected. -/
def errorWithFile : Flow :=
  (initialFlow.step (.selectFile sampleFile)).step (.selectFile textFile)

/-- The Loading screen with a request in flight: `sampleFile` was chosen and
analyze pressed. -/
def loadingFlow : Flow :=
  (initialFlow.step (.selectFile sampleFile)).step (.analyze 0)

/-- A response with status `ok` and two results. -/
def twoResults : FetchOutcome ImageResult :=
  .json true
    { status := some "ok"
      results := some [⟨7, "Retrato", 91, "/img/7.png"⟩, ⟨9, "Paisaje", 64, "/img/9.png"⟩]
      error := none
      message := none }

/-- A file is selected, analyze is pressed, and `resetToUpload` runs while the
request is in flight. -/
def resetInFlight : ImageState :=
  resetToUpload (startAnalysisBegin 0 fileChosen)

/-- The response to the abandoned request then arrives: OK, status `ok`, two
results. -/
def staleDelivery : ImageState :=
  startAnalysisDeliver
    (.json true
      { status := some "ok"
        results := some [⟨7, "Retrato", 91, "/img/7.png"⟩, ⟨9, "Paisaje", 64, "/img/9.png"⟩]
        error := none
        message := none })
    1500 42 resetInFlight

end ImageHandler

/-! ## Lemmas on the document -/

namespace Dom

theorem getElementById_updateClassList (i j : String) (f : List String → List String)
    (dom : List Element) :
    getElementById i (updateClassList j f dom) =
      if i = j then (getElementById i dom).map (fun e => { e with classList := f e.classList })
      else getElementById i dom := by
  induction dom with
  | nil => simp [updateClassList, getElementById]
  | cons e es ih =>
    unfold getElementById at ih ⊢
    by_cases hj : e.id = j
    · by_cases hi : i = j
      · subst hi
        simp [updateClassList, hj, List.find?_cons]
      · have hne : ¬ e.id = i := fun h => hi (h.symm.trans hj)
        have hb : (j == i) = false := by
          simpa using fun h : j = i => hi h.symm
        simp [updateClassList, hj, List.find?_cons, hi, hb]
    · by_cases hei : e.id = i
      · have hi : ¬ i = j := fun h => hj (hei.trans h)
        simp [updateClassList, hj, List.find?_cons, hei, hi]
      · have hb : (e.id == i) = false := by simpa using hei
        simp only [updateClassList, hj, List.find?_cons, if_false, hb]
        exact ih

theorem contains_classListAdd (cls : String) (l : List String) :
    (classListAdd cls l).contains cls = true := by
  unfold classListAdd
  split
  · assumption
  · simp

theorem contains_classListRemove (cls : String) (l : List String) :
    (classListRemove cls l).contains cls = false := by
  simp [classListRemove, List.contains_iff_exists_mem_beq]

theorem getElementById_map (i : String) (g : Element → Element)
    (hg : ∀ e, (g e).id = e.id) (dom : List Element) :
    getElementById i (dom.map g) = (getElementById i dom).map g := by
  induction dom with
  | nil => simp [getElementById]
  | cons e es ih =>
    unfold getElementById at ih ⊢
    simp only [List.map_cons, List.find?_cons, hg]
    cases e.id == i <;> simp [ih]

theorem hasElement_updateClassList (i j : String) (f : List String → List String)
    (dom : List Element) :
    hasElement i (updateClassList j f dom) = hasElement i dom := by
  unfold hasElement
  rw [getElementById_updateClassList]
  split <;> simp

theorem isActive_updateClassList_add (i : String) (dom : List Element)
    (h : hasElement i dom = true) :
    isActive i (updateClassList i (classListAdd "active") dom) = true := by
  unfold isActive
  rw [getElementById_updateClassList]
  unfold hasElement at h
  cases hget : getElementById i dom with
  | none => simp [hget] at h
  | some e => simpa using contains_classListAdd "active" e.classList

theorem isActive_updateClassList_other (i j : String) (f : List String → List String)
    (dom : List Element) (h : i ≠ j) :
    isActive i (updateClassList j f dom) = isActive i dom := by
  unfold isActive
  rw [getElementById_updateClassList]
  simp [h]

theorem isActive_updateClassList_remove (i : String) (dom : List Element) :
    isActive i (updateClassList i (classListRemove "active") dom) = false := by
  unfold isActive
  rw [getElementById_updateClassList]
  cases hget : getElementById i dom with
  | none => simp
  | some e => simpa using contains_classListRemove "active" e.classList

end Dom

/-! ## Playback (`toggleAudio`, `playAudio`, `pauseCurrentAudio`) -/

namespace AudioHandler

theorem buttons_setFirstButton_find_same (id : Int) (state : String) (nodes : List Node) :
    ((setFirstButton id state nodes).filterMap (fun n =>
        match n with
        | .resultItem item => some item.button
        | _ => none)).find? (fun b => b.dataId == id) =
      ((nodes.filterMap (fun n =>
        match n with
        | .resultItem item => some item.button
        | _ => none)).find? (fun b => b.dataId == id)).map
        (fun b => { b with dataState := state, playing := state == "pause" }) := by
  induction nodes with
  | nil => simp [setFirstButton]
  | cons n rest ih =>
    cases n with
    | resultItem item =>
      by_cases h : item.button.dataId = id
      · simp [setFirstButton, h, List.find?_cons]
      · simp [setFirstButton, h, List.find?_cons, ih]
    | noResultsMessage => simpa [setFirstButton] using ih
    | errorMessage m => simpa [setFirstButton] using ih

theorem buttons_setFirstButton_find_other (id j : Int) (state : String) (nodes : List Node)
    (hj : j ≠ id) :
    ((setFirstButton id state nodes).filterMap (fun n =>
        match n with
        | .resultItem item => some item.button
        | _ => none)).find? (fun b => b.dataId == j) =
      (nodes.filterMap (fun n =>
        match n with
        | .resultItem item => some item.button
        | _ => none)).find? (fun b => b.dataId == j) := by
  induction nodes with
  | nil => simp [setFirstButton]
  | cons n rest ih =>
    cases n with
    | resultItem item =>
      by_cases h : item.button.dataId = id
      · have hb : (id == j) = false := by simpa using fun h2 : id = j => hj h2.symm
        simp [setFirstButton, h, List.find?_cons, hb]
      · simp [setFirstButton, h, List.find?_cons, ih]
    | noResultsMessage => simpa [setFirstButton] using ih
    | errorMessage m => simpa [setFirstButton] using ih

/-- After `updatePlayButton(id, state)` the button of `id`, when there is one, is in
that state. -/
theorem buttonOf_updatePlayButton_same (id : Int) (state : String) (s : AudioState) :
    buttonOf id (updatePlayButton id state s) =
      (buttonOf id s).map (fun b => { b with dataState := state, playing := state == "pause" }) := by
  simp only [buttonOf, buttons, updatePlayButton]
  exact buttons_setFirstButton_find_same id state s.resultsContainer

/-- The call `updatePlayButton(id, state)` leaves the buttons of other ids alone. -/
theorem buttonOf_updatePlayButton_other (id j : Int) (state : String) (s : AudioState)
    (hj : j ≠ id) :
    buttonOf j (updatePlayButton id state s) = buttonOf j s := by
  simp only [buttonOf, buttons, updatePlayButton]
  exact buttons_setFirstButton_find_other id j state s.resultsContainer hj

/-- For an id other than 0: `toggleAudio` on the item that is playing pauses the
player, puts the item's button back to `play` and leaves nothing playing. -/
theorem toggleAudio_current_truthy (s : AudioState) (id : Int) (audioPath : String)
    (hcur : s.currentPlayingId = some id) (hid : id ≠ 0) :
    (toggleAudio id audioPath s).currentPlayingId = none ∧
    (toggleAudio id audioPath s).globalAudioPlayer.calls = s.globalAudioPlayer.calls ++ [.pause] ∧
    (toggleAudio id audioPath s).globalAudioPlayer.src = s.globalAudioPlayer.src ∧
    buttonOf id (toggleAudio id audioPath s) =
      (buttonOf id s).map (fun b => { b with dataState := "play", playing := false }) := by
  have h : toggleAudio id audioPath s =
      { updatePlayButton id "play"
          { s with globalAudioPlayer :=
              { s.globalAudioPlayer with calls := s.globalAudioPlayer.calls ++ [.pause] } } with
        currentPlayingId := none } := by
    simp [toggleAudio, pauseCurrentAudio, hcur, truthy, hid]
  rw [h]
  refine ⟨rfl, rfl, rfl, ?_⟩
  have := buttonOf_updatePlayButton_same id "play"
    { s with globalAudioPlayer :=
        { s.globalAudioPlayer with calls := s.globalAudioPlayer.calls ++ [.pause] } }
  simpa [buttonOf, buttons, updatePlayButton] using this

/-- C1, evaluated at id 0: the item with id 0 is playing (its button shows `pause`),
and `toggleAudio(0, url)` changes nothing: the player is not paused, the button is
not put back to `play`, and `currentPlayingId` stays 0. -/
theorem toggleAudio_current_zero_unchanged :
    playingZero.currentPlayingId = some 0 ∧
    (buttonOf 0 playingZero).map (fun b => b.dataState) = some "pause" ∧
    playingZero.globalAudioPlayer.calls = [.load, .play] ∧
    toggleAudio 0 sampleUrl playingZero = playingZero := by
  decide

/-- For distinct ids `a`, `b` with `a` other than 0: `toggleAudio(b, url)` while `a`
plays pauses the player, puts the button of `a` back to `play`, loads `url`, and
leaves `b` current with its button in `loading` while the promise is pending. -/
theorem toggleAudio_other_truthy (s : AudioState) (a b : Int) (audioPath : String)
    (hcur : s.currentPlayingId = some a) (ha : a ≠ 0) (hab : a ≠ b) :
    (toggleAudio b audioPath s).currentPlayingId = some b ∧
    (toggleAudio b audioPath s).globalAudioPlayer.calls =
      s.globalAudioPlayer.calls ++ [.pause, .load, .play] ∧
    (toggleAudio b audioPath s).globalAudioPlayer.src = audioPath ∧
    (toggleAudio b audioPath s).pendingPlays = s.pendingPlays ++ [b] ∧
    buttonOf a (toggleAudio b audioPath s) =
      (buttonOf a s).map (fun x => { x with dataState := "play", playing := false }) ∧
    buttonOf b (toggleAudio b audioPath s) =
      (buttonOf b s).map (fun x => { x with dataState := "loading", playing := false }) := by
  have hne : ¬ (some a : Option Int) = some b := by simpa using hab
  have h : toggleAudio b audioPath s =
      { updatePlayButton b "loading" (updatePlayButton a "play" s) with
        currentPlayingId := some b
        globalAudioPlayer :=
          { src := audioPath, calls := s.globalAudioPlayer.calls ++ [.pause, .load, .play] }
        pendingPlays := s.pendingPlays ++ [b] } := by
    simp [toggleAudio, playAudio, pauseCurrentAudio, hcur, truthy, ha, hne, updatePlayButton]
  rw [h]
  refine ⟨rfl, rfl, rfl, rfl, ?_, ?_⟩
  · have h1 := buttonOf_updatePlayButton_other b a "loading" (updatePlayButton a "play" s) hab
    have h2 := buttonOf_updatePlayButton_same a "play" s
    simp only [buttonOf, buttons, updatePlayButton] at h1 h2 ⊢
    rw [h1, h2]
    simp
  · have h1 := buttonOf_updatePlayButton_same b "loading" (updatePlayButton a "play" s)
    have h2 := buttonOf_updatePlayButton_other a b "play" s (Ne.symm hab)
    simp only [buttonOf, buttons, updatePlayButton] at h1 h2 ⊢
    rw [h1, h2]
    simp

/-- C2, evaluated on two runs from a page that shows its results with every button
on `play` and nothing playing.  First run, ids 1 and 2: the second click comes
while the first `play()` promise is pending, then that promise rejects; its handler
clears `currentPlayingId` although the button of item 2 is in `loading`.  Second
run, ids 0 and 1: item 0 is started, then item 1; the button of item 0 is not put
back, so two buttons are out of `play`. -/
theorem atMostOnePlaying_broken :
    (resultsShown [sampleResult 1, sampleResult 2]).currentPlayingId = none ∧
    (buttons (resultsShown [sampleResult 1, sampleResult 2])).map (fun b => (b.dataId, b.dataState)) =
      [(1, "play"), (2, "play")] ∧
    atMostOnePlaying (resultsShown [sampleResult 1, sampleResult 2]) = true ∧
    (run interruptedPlay (resultsShown [sampleResult 1, sampleResult 2])).currentPlayingId = none ∧
    (buttonOf 2 (run interruptedPlay (resultsShown [sampleResult 1, sampleResult 2]))).map
      (fun b => b.dataState) = some "loading" ∧
    atMostOnePlaying (run interruptedPlay (resultsShown [sampleResult 1, sampleResult 2])) = false ∧
    atMostOnePlaying (resultsShown [sampleResult 0, sampleResult 1]) = true ∧
    (buttons (run [.toggleAudio 0 sampleUrl, .toggleAudio 1 sampleUrl]
      (resultsShown [sampleResult 0, sampleResult 1]))).map (fun b => (b.dataId, b.dataState)) =
      [(0, "loading"), (1, "loading")] ∧
    atMostOnePlaying (run [.toggleAudio 0 sampleUrl, .toggleAudio 1 sampleUrl]
      (resultsShown [sampleResult 0, sampleResult 1])) = false := by
  decide

/-- C3, evaluated at `a = 0`, `b = 1`: item 0 is playing and `toggleAudio(1, url)` is
called.  Item 1 becomes current with its button in `loading` and the source is
set, but the player is not paused (the calls gain `load` and `play` only) and the
button of item 0 still shows `pause`. -/
theorem toggleAudio_other_zero_not_paused :
    playingZero.currentPlayingId = some 0 ∧
    (toggleAudio 1 sampleUrl playingZero).currentPlayingId = some 1 ∧
    (toggleAudio 1 sampleUrl playingZero).globalAudioPlayer.src = sampleUrl ∧
    (toggleAudio 1 sampleUrl playingZero).globalAudioPlayer.calls =
      playingZero.globalAudioPlayer.calls ++ [.load, .play] ∧
    (buttonOf 1 (toggleAudio 1 sampleUrl playingZero)).map (fun b => b.dataState) = some "loading" ∧
    (buttonOf 0 (toggleAudio 1 sampleUrl playingZero)).map (fun b => b.dataState) = some "pause" := by
  decide

end AudioHandler

/-! ## Screens and reset -/

namespace AudioHandler

theorem getElementById_hideScreens (i : String) (dom : List Element) :
    Dom.getElementById i (hideScreens dom) =
      (Dom.getElementById i dom).map (fun e =>
        if e.classList.contains "hologram-screen" then
          { e with classList := Dom.classListRemove "active" e.classList }
        else e) := by
  unfold hideScreens
  apply Dom.getElementById_map
  intro e
  split <;> rfl

/-- When the requested element exists, `showScreen` returns, and the page differs
from the one before only in the class lists. -/
theorem showScreen_of_hasElement (screenId : String) (s : AudioState)
    (h : Dom.hasElement screenId s.dom = true) :
    showScreen screenId s =
      .ok { s with dom := Dom.updateClassList screenId (Dom.classListAdd "active") (hideScreens s.dom) } := by
  unfold Dom.hasElement at h
  unfold showScreen
  simp only [getElementById_hideScreens]
  cases hget : Dom.getElementById screenId s.dom with
  | none => simp [hget] at h
  | some e => simp

theorem hasElement_hideScreens (i : String) (dom : List Element) :
    Dom.hasElement i (hideScreens dom) = Dom.hasElement i dom := by
  simp [Dom.hasElement, getElementById_hideScreens]

/-- After `showScreen(screenId)` on a page that has the element, it is active. -/
theorem isActive_shown (screenId : String) (dom : List Element)
    (h : Dom.hasElement screenId dom = true) :
    Dom.isActive screenId
      (Dom.updateClassList screenId (Dom.classListAdd "active") (hideScreens dom)) = true := by
  apply Dom.isActive_updateClassList_add
  rw [hasElement_hideScreens]
  exact h

/-- After `showScreen(screenId)` no other `.hologram-screen` is active. -/
theorem isActive_hidden (screenId other : String) (dom : List Element) (e : Element)
    (hne : other ≠ screenId) (hget : Dom.getElementById other dom = some e)
    (hscreen : e.classList.contains "hologram-screen" = true) :
    Dom.isActive other
      (Dom.updateClassList screenId (Dom.classListAdd "active") (hideScreens dom)) = false := by
  rw [Dom.isActive_updateClassList_other _ _ _ _ hne]
  unfold Dom.isActive
  rw [getElementById_hideScreens, hget]
  have hr := Dom.contains_classListRemove "active" e.classList
  simp only [Option.map_some', hscreen, if_true]
  exact hr

/-- Audio variant, when the item that plays does not have id 0: `resetToUpload`
returns with the Upload screen active, no file, no results, the analyze button
disabled and nothing playing. -/
theorem resetToUpload_truthy (s : AudioState)
    (hpage : Dom.hasElement "uploadScreen" s.dom = true) (hcur : s.currentPlayingId ≠ some 0) :
    ∃ s', resetToUpload s = .ok s' ∧
      Dom.isActive "uploadScreen" s'.dom = true ∧
      s'.selectedFile = none ∧ s'.analysisResults = [] ∧
      s'.analyzeBtnDisabled = true ∧ s'.currentPlayingId = none := by
  have hdom : (pauseCurrentAudio s).dom = s.dom := by
    unfold pauseCurrentAudio
    split
    · split <;> rfl
    · rfl
  have hnone : (pauseCurrentAudio s).currentPlayingId = none := by
    unfold pauseCurrentAudio
    split
    · rename_i id hid
      split
      · rfl
      · rename_i hf
        have : id = 0 := by simpa [truthy] using hf
        exact absurd (this ▸ hid) hcur
    · assumption
  unfold resetToUpload
  rw [showScreen_of_hasElement _ _ (by simpa [hdom] using hpage)]
  refine ⟨_, rfl, ?_, rfl, rfl, rfl, hnone⟩
  exact isActive_shown _ _ (by simpa [hdom] using hpage)

/-- C10, audio variant, evaluated at the state in which item 0 plays:
`resetToUpload` clears the file and the results and shows the Upload screen, but
`currentPlayingId` is still 0 afterwards and the player has not been paused. -/
theorem resetToUpload_zero_still_playing :
    playingZero.currentPlayingId = some 0 ∧
    (Js.settle (resetToUpload playingZero)).currentPlayingId = some 0 ∧
    (Js.settle (resetToUpload playingZero)).globalAudioPlayer = playingZero.globalAudioPlayer ∧
    (Js.settle (resetToUpload playingZero)).selectedFile = none ∧
    (Js.settle (resetToUpload playingZero)).analysisResults = [] ∧
    (Js.settle (resetToUpload playingZero)).analyzeBtnDisabled = true ∧
    Dom.isActive "uploadScreen" (Js.settle (resetToUpload playingZero)).dom = true := by
  decide

end AudioHandler

namespace ImageHandler

theorem isActive_foldl_remove (other : String) (ids : List String) (dom : List Element)
    (h : other ∈ ids ∨ Dom.isActive other dom = false) :
    Dom.isActive other
      (ids.foldl (fun dom id => Dom.updateClassList id (Dom.classListRemove "active") dom) dom) =
      false := by
  induction ids generalizing dom with
  | nil =>
    rcases h with h | h
    · simp at h
    · simpa using h
  | cons j js ih =>
    simp only [List.foldl_cons]
    apply ih
    by_cases hj : other = j
    · right
      subst hj
      exact Dom.isActive_updateClassList_remove _ _
    · rcases h with h | h
      · left
        simpa [hj] using h
      · right
        rw [Dom.isActive_updateClassList_other _ _ _ _ hj]
        exact h

theorem hasElement_foldl_remove (i : String) (ids : List String) (dom : List Element) :
    Dom.hasElement i
      (ids.foldl (fun dom id => Dom.updateClassList id (Dom.classListRemove "active") dom) dom) =
      Dom.hasElement i dom := by
  induction ids generalizing dom with
  | nil => rfl
  | cons j js ih =>
    simp only [List.foldl_cons]
    rw [ih, Dom.hasElement_updateClassList]

/-- After `showScreen(screenId)` on a page that has the element, it is active, and
each of the four screens other than it is not. -/
theorem isActive_showScreen (screenId : String) (s : ImageState)
    (h : Dom.hasElement screenId s.dom = true) :
    Dom.isActive screenId (showScreen screenId s).dom = true ∧
    ∀ other ∈ screens, other ≠ screenId → Dom.isActive other (showScreen screenId s).dom = false := by
  constructor
  · apply Dom.isActive_updateClassList_add
    rw [hasElement_foldl_remove]
    exact h
  · intro other hmem hne
    simp only [showScreen]
    rw [Dom.isActive_updateClassList_other _ _ _ _ hne]
    exact isActive_foldl_remove other screens s.dom (Or.inl hmem)

/-- Image variant: `resetToUpload` from any state of a page that has the Upload
screen leaves that screen active and the other three not, no file and an empty
result list. -/
theorem resetToUpload_clears (s : ImageState)
    (hpage : Dom.hasElement "uploadSection" s.dom = true) :
    Dom.isActive "uploadSection" (resetToUpload s).dom = true ∧
    (∀ other ∈ screens, other ≠ "uploadSection" →
      Dom.isActive other (resetToUpload s).dom = false) ∧
    (resetToUpload s).selectedFile = none ∧
    (resetToUpload s).analysisResults = some [] := by
  have h := isActive_showScreen "uploadSection" s hpage
  exact ⟨h.1, h.2, rfl, rfl⟩

end ImageHandler

/-! ## File selection (`processSelectedFile`) -/

namespace Js

/-- The embedding of `startsWith` agrees with the reading "the string begins with
`p`": the string is `p` followed by something. -/
theorem startsWith_iff (s p : String) : startsWith s p = true ↔ ∃ r : String, s = p ++ r := by
  unfold startsWith
  rw [List.isPrefixOf_iff_prefix]
  constructor
  · rintro ⟨t, ht⟩
    refine ⟨String.mk t, ?_⟩
    apply String.ext
    simpa using ht.symm
  · rintro ⟨r, rfl⟩
    exact ⟨r.toList, by simp⟩

/-- The embedding of `endsWith` agrees with the reading "the string ends with `p`":
the string is something followed by `p`. -/
theorem endsWith_iff (s p : String) : endsWith s p = true ↔ ∃ r : String, s = r ++ p := by
  unfold endsWith
  rw [List.isSuffixOf_iff_suffix]
  constructor
  · rintro ⟨t, ht⟩
    refine ⟨String.mk t, ?_⟩
    apply String.ext
    simpa using ht.symm
  · rintro ⟨r, rfl⟩
    exact ⟨r.toList, by simp⟩

end Js

namespace ImageHandler

theorem processSelectedFile_image_of_valid (file : File) (s : ImageState)
    (h : Js.startsWith file.type "image/" = true ∧ file.size ≤ 16777216) :
    processSelectedFile file s = { s with selectedFile := some file } := by
  have hsize : ¬ file.size > 16 * 1024 * 1024 := by omega
  simp [processSelectedFile, h.1, hsize]

theorem processSelectedFile_image_of_invalid (file : File) (s : ImageState)
    (h : ¬ (Js.startsWith file.type "image/" = true ∧ file.size ≤ 16777216)) :
    processSelectedFile file s = showError "Por favor selecciona un archivo de imagen válido" s ∨
    processSelectedFile file s = showError "El archivo es demasiado grande. Máximo 16MB" s := by
  by_cases ht : Js.startsWith file.type "image/" = true
  · have hsize : file.size > 16 * 1024 * 1024 := by
      have : ¬ file.size ≤ 16777216 := fun hs => h ⟨ht, hs⟩
      omega
    right
    simp [processSelectedFile, ht, hsize]
  · left
    simp [processSelectedFile, ht]

/-- C5. Image variant, on a page that has the Error screen.  A file whose MIME type
starts with `image/` and whose size is at most 16777216 bytes becomes
`selectedFile`, and nothing else changes.  Any other file leaves `selectedFile` as
it was and shows the Error screen with one of the two messages.  So, unless the
file was the selected one already, it is the selected file afterwards exactly when
the condition holds. -/
theorem processSelectedFile_accepts_iff (file : File) (s : ImageState)
    (hpage : Dom.hasElement "errorSection" s.dom = true) :
    (((∃ r : String, file.type = "image/" ++ r) ∧ file.size ≤ 16777216) →
      processSelectedFile file s = { s with selectedFile := some file }) ∧
    (¬ ((∃ r : String, file.type = "image/" ++ r) ∧ file.size ≤ 16777216) →
      (processSelectedFile file s).selectedFile = s.selectedFile ∧
      Dom.isActive "errorSection" (processSelectedFile file s).dom = true ∧
      ((processSelectedFile file s).errorMessage = "Por favor selecciona un archivo de imagen válido" ∨
       (processSelectedFile file s).errorMessage = "El archivo es demasiado grande. Máximo 16MB")) ∧
    (s.selectedFile ≠ some file →
      ((processSelectedFile file s).selectedFile = some file ↔
        ((∃ r : String, file.type = "image/" ++ r) ∧ file.size ≤ 16777216))) := by
  simp only [← Js.startsWith_iff]
  have hreject : ¬ (Js.startsWith file.type "image/" = true ∧ file.size ≤ 16777216) →
      (processSelectedFile file s).selectedFile = s.selectedFile ∧
      Dom.isActive "errorSection" (processSelectedFile file s).dom = true ∧
      ((processSelectedFile file s).errorMessage = "Por favor selecciona un archivo de imagen válido" ∨
       (processSelectedFile file s).errorMessage = "El archivo es demasiado grande. Máximo 16MB") := by
    intro h
    rcases processSelectedFile_image_of_invalid file s h with h1 | h1
    · rw [h1]
      exact ⟨rfl, (isActive_showScreen "errorSection" _ hpage).1, Or.inl rfl⟩
    · rw [h1]
      exact ⟨rfl, (isActive_showScreen "errorSection" _ hpage).1, Or.inr rfl⟩
  refine ⟨processSelectedFile_image_of_valid file s, hreject, ?_⟩
  intro hne
  constructor
  · intro hsel
    by_contra hcond
    exact hne ((hreject hcond).1 ▸ hsel)
  · intro hcond
    rw [processSelectedFile_image_of_valid file s hcond]

/-- C5 at the boundary: on the page as loaded, a PNG of exactly 16777216 bytes is
accepted, and one of 16777217 bytes is rejected with the Error screen shown. -/
theorem processSelectedFile_accepts_iff_witness :
    processSelectedFile ⟨"a.png", 16777216, "image/png"⟩ initialState =
      { initialState with selectedFile := some ⟨"a.png", 16777216, "image/png"⟩ } ∧
    ((processSelectedFile ⟨"a.png", 16777217, "image/png"⟩ initialState).selectedFile = none ∧
      Dom.isActive "errorSection"
        (processSelectedFile ⟨"a.png", 16777217, "image/png"⟩ initialState).dom = true ∧
      ((processSelectedFile ⟨"a.png", 16777217, "image/png"⟩ initialState).errorMessage =
          "Por favor selecciona un archivo de imagen válido" ∨
       (processSelectedFile ⟨"a.png", 16777217, "image/png"⟩ initialState).errorMessage =
          "El archivo es demasiado grande. Máximo 16MB")) :=
  ⟨(processSelectedFile_accepts_iff ⟨"a.png", 16777216, "image/png"⟩ initialState (by decide)).1
      ⟨⟨"png", by decide⟩, by decide⟩,
   (processSelectedFile_accepts_iff ⟨"a.png", 16777217, "image/png"⟩ initialState (by decide)).2.1
      (fun h => absurd h.2 (by decide))⟩

end ImageHandler

namespace AudioHandler

theorem processSelectedFile_audio_of_invalid (file : File) (s : AudioState)
    (h : file.type ≠ "audio/mpeg" ∧ file.type ≠ "audio/mp3" ∧ file.type ≠ "audio/wav" ∧
      file.type ≠ "audio/m4a" ∧ Js.endsWith (Js.toLowerCase file.name) ".mp3" = false) :
    processSelectedFile file s =
      { s with alerts := s.alerts ++
          ["Por favor selecciona un archivo de audio válido (MP3, WAV, M4A)"] } := by
  obtain ⟨h1, h2, h3, h4, h5⟩ := h
  simp [processSelectedFile, validTypes, h1, h2, h3, h4, h5]

theorem processSelectedFile_audio_of_valid (file : File) (s : AudioState)
    (h : file.type = "audio/mpeg" ∨ file.type = "audio/mp3" ∨ file.type = "audio/wav" ∨
      file.type = "audio/m4a" ∨ Js.endsWith (Js.toLowerCase file.name) ".mp3" = true) :
    processSelectedFile file s =
      { s with
        selectedFile := some file
        fileName := file.name
        fileSize := formatFileSize file.size
        selectedFileDisplay := "flex"
        analyzeBtnDisabled := false } := by
  unfold processSelectedFile
  rw [if_neg]
  simp only [validTypes, List.contains_cons, List.contains_nil, Bool.and_eq_true,
    Bool.not_eq_true', Bool.or_eq_false_iff, beq_eq_false_iff_ne, Bool.or_false, not_and,
    Bool.not_eq_false]
  intro hne
  rcases h with h | h | h | h | h
  · exact absurd h hne.1
  · exact absurd h hne.2.1
  · exact absurd h hne.2.2.1
  · exact absurd h hne.2.2.2
  · exact h

end AudioHandler

namespace AudioHandler

/-- C6. Audio variant.  Take any sequence of files none of which has one of the four
MIME types nor a lower-cased name ending in `.mp3`.  Selecting them one after the
other leaves `selectedFile` and the `disabled` flag of the analyze button as they
were (each selection only adds an alert); from the page as loaded there is still
no file and the button is still disabled, and `startAnalysis` returns at once. -/
theorem processSelectedFile_rejections (files : List File) (s : AudioState)
    (hfiles : ∀ f ∈ files, f.type ≠ "audio/mpeg" ∧ f.type ≠ "audio/mp3" ∧ f.type ≠ "audio/wav" ∧
      f.type ≠ "audio/m4a" ∧ ¬ ∃ r : String, Js.toLowerCase f.name = r ++ ".mp3") :
    (files.foldl (fun s f => processSelectedFile f s) s).selectedFile = s.selectedFile ∧
    (files.foldl (fun s f => processSelectedFile f s) s).analyzeBtnDisabled = s.analyzeBtnDisabled ∧
    (files.foldl (fun s f => processSelectedFile f s) initialState).selectedFile = none ∧
    (files.foldl (fun s f => processSelectedFile f s) initialState).analyzeBtnDisabled = true ∧
    ∀ outcome, startAnalysis outcome (files.foldl (fun s f => processSelectedFile f s) initialState) =
      .ok (files.foldl (fun s f => processSelectedFile f s) initialState) := by
  have key : ∀ (fs : List File) (t : AudioState),
      (∀ f ∈ fs, f.type ≠ "audio/mpeg" ∧ f.type ≠ "audio/mp3" ∧ f.type ≠ "audio/wav" ∧
        f.type ≠ "audio/m4a" ∧ ¬ ∃ r : String, Js.toLowerCase f.name = r ++ ".mp3") →
      (fs.foldl (fun s f => processSelectedFile f s) t).selectedFile = t.selectedFile ∧
      (fs.foldl (fun s f => processSelectedFile f s) t).analyzeBtnDisabled = t.analyzeBtnDisabled := by
    intro fs
    induction fs with
    | nil => intro t _; exact ⟨rfl, rfl⟩
    | cons f rest ih =>
      intro t h
      have hf := h f (List.mem_cons_self f rest)
      have hend : Js.endsWith (Js.toLowerCase f.name) ".mp3" = false := by
        rw [← Bool.not_eq_true, Js.endsWith_iff]
        exact hf.2.2.2.2
      have hstep := processSelectedFile_audio_of_invalid f t ⟨hf.1, hf.2.1, hf.2.2.1, hf.2.2.2.1, hend⟩
      have hrest := ih (processSelectedFile f t) (fun g hg => h g (List.mem_cons_of_mem f hg))
      simp only [List.foldl_cons]
      rw [hrest.1, hrest.2, hstep]
      exact ⟨rfl, rfl⟩
  have h0 := key files initialState hfiles
  refine ⟨(key files s hfiles).1, (key files s hfiles).2, h0.1, h0.2, ?_⟩
  intro outcome
  unfold startAnalysis
  rw [h0.1]
  rfl

/-- C6 on two concrete selections: a WAV file without a MIME type and a PDF. -/
theorem processSelectedFile_rejections_witness :
    ([⟨"x.wav", 10, ""⟩, ⟨"doc.pdf", 20, "application/pdf"⟩].foldl
        (fun s f => processSelectedFile f s) initialState).selectedFile = none ∧
    ([⟨"x.wav", 10, ""⟩, ⟨"doc.pdf", 20, "application/pdf"⟩].foldl
        (fun s f => processSelectedFile f s) initialState).analyzeBtnDisabled = true :=
  have h := processSelectedFile_rejections
    [⟨"x.wav", 10, ""⟩, ⟨"doc.pdf", 20, "application/pdf"⟩] initialState
    (by
      intro f hf
      simp only [List.mem_cons, List.mem_singleton, List.not_mem_nil, or_false] at hf
      rcases hf with rfl | rfl
      · refine ⟨by decide, by decide, by decide, by decide, ?_⟩
        rw [← Js.endsWith_iff]
        decide
      · refine ⟨by decide, by decide, by decide, by decide, ?_⟩
        rw [← Js.endsWith_iff]
        decide)
  ⟨h.2.2.1, h.2.2.2.1⟩

/-- C7. Audio variant.  A file that has one of the four MIME types, or whose
lower-cased name ends in `.mp3` whatever its MIME type, is stored as `selectedFile`
and the analyze button is enabled.  Any other file changes nothing but the list of
alerts, so the file is not stored and the button keeps its flag; such are `x.wav`
and `x.m4a` with an empty or an unlisted MIME type. -/
theorem processSelectedFile_accepts (file : File) (s : AudioState) :
    ((file.type = "audio/mpeg" ∨ file.type = "audio/mp3" ∨ file.type = "audio/wav" ∨
        file.type = "audio/m4a" ∨ ∃ r : String, Js.toLowerCase file.name = r ++ ".mp3") →
      (processSelectedFile file s).selectedFile = some file ∧
      (processSelectedFile file s).analyzeBtnDisabled = false) ∧
    (¬ (file.type = "audio/mpeg" ∨ file.type = "audio/mp3" ∨ file.type = "audio/wav" ∨
        file.type = "audio/m4a" ∨ ∃ r : String, Js.toLowerCase file.name = r ++ ".mp3") →
      processSelectedFile file s =
        { s with alerts := s.alerts ++
            ["Por favor selecciona un archivo de audio válido (MP3, WAV, M4A)"] }) ∧
    (∀ size : Nat, ∀ name ∈ ["x.wav", "x.m4a"], ∀ type ∈ ["", "application/octet-stream"],
      (processSelectedFile ⟨name, size, type⟩ s).selectedFile = s.selectedFile ∧
      (processSelectedFile ⟨name, size, type⟩ s).analyzeBtnDisabled = s.analyzeBtnDisabled) := by
  simp only [← Js.endsWith_iff]
  refine ⟨?_, ?_, ?_⟩
  · intro h
    rw [processSelectedFile_audio_of_valid file s h]
    exact ⟨rfl, rfl⟩
  · intro h
    simp only [not_or] at h
    exact processSelectedFile_audio_of_invalid file s
      ⟨h.1, h.2.1, h.2.2.1, h.2.2.2.1, by simpa using h.2.2.2.2⟩
  · intro size name hname type htype
    simp only [List.mem_cons, List.mem_singleton, List.not_mem_nil, or_false] at hname htype
    have hinv : processSelectedFile ⟨name, size, type⟩ s =
        { s with alerts := s.alerts ++
            ["Por favor selecciona un archivo de audio válido (MP3, WAV, M4A)"] } := by
      apply processSelectedFile_audio_of_invalid
      rcases hname with rfl | rfl <;> rcases htype with rfl | rfl <;>
        refine ⟨?_, ?_, ?_, ?_, ?_⟩ <;> dsimp only <;> decide
    rw [hinv]
    exact ⟨rfl, rfl⟩

/-- C7 on concrete files: `song.mp3` with MIME type `audio/mpeg` and `TRACK.MP3`
with no MIME type are both stored and enable the button. -/
theorem processSelectedFile_accepts_witness :
    ((processSelectedFile sampleFile initialState).selectedFile = some sampleFile ∧
      (processSelectedFile sampleFile initialState).analyzeBtnDisabled = false) ∧
    ((processSelectedFile ⟨"TRACK.MP3", 7, ""⟩ initialState).selectedFile = some ⟨"TRACK.MP3", 7, ""⟩ ∧
      (processSelectedFile ⟨"TRACK.MP3", 7, ""⟩ initialState).analyzeBtnDisabled = false) :=
  ⟨(processSelectedFile_accepts sampleFile initialState).1 (Or.inl rfl),
   (processSelectedFile_accepts ⟨"TRACK.MP3", 7, ""⟩ initialState).1
      (Or.inr (Or.inr (Or.inr (Or.inr ⟨"track", by decide⟩))))⟩

end AudioHandler

/-! ## Showing the results -/

namespace AudioHandler

theorem hasElement_shown (i screenId : String) (dom : List Element) :
    Dom.hasElement i
      (Dom.updateClassList screenId (Dom.classListAdd "active") (hideScreens dom)) =
      Dom.hasElement i dom := by
  rw [Dom.hasElement_updateClassList, hasElement_hideScreens]

theorem foldl_appendChild (results : List AudioResult) (s : AudioState) :
    results.foldl
      (fun s result =>
        { s with resultsContainer := s.resultsContainer ++ [.resultItem (createResultItem result)] })
      s =
    { s with resultsContainer :=
        s.resultsContainer ++ results.map (fun r => .resultItem (createResultItem r)) } := by
  induction results generalizing s with
  | nil => simp
  | cons r rs ih => simp [List.foldl_cons, ih]

theorem simulateAnalysisProgress_audio_eq (s : AudioState) :
    simulateAnalysisProgress s =
      { s with loadingText := "Procesando resultados...", progressFillWidth := "90%" } := by
  simp [simulateAnalysisProgress, progressSteps]

end AudioHandler

/-! ## A failed or zero-result analysis -/

namespace AudioHandler

theorem showError_of_hasElement (message : String) (s : AudioState)
    (h : Dom.hasElement "resultsScreen" s.dom = true) :
    showError message s = .ok
      { s with
        dom := Dom.updateClassList "resultsScreen" (Dom.classListAdd "active") (hideScreens s.dom)
        matchCount := "0"
        resultsContainer := [.errorMessage message] } := by
  unfold showError
  rw [showScreen_of_hasElement _ _ h]
  rfl

theorem showNoResults_of_hasElement (s : AudioState)
    (h : Dom.hasElement "resultsScreen" s.dom = true) :
    showNoResults s = .ok
      { s with
        dom := Dom.updateClassList "resultsScreen" (Dom.classListAdd "active") (hideScreens s.dom)
        matchCount := "0"
        resultsContainer := [.noResultsMessage] } := by
  unfold showNoResults
  rw [showScreen_of_hasElement _ _ h]
  rfl

/-- Audio variant: what `startAnalysisDeliver` does with a failed or zero-result
attempt, on a page that has the Results screen. -/
theorem startAnalysisDeliver_failure (outcome : FetchOutcome AudioResult) (t : AudioState)
    (hpage : Dom.hasElement "resultsScreen" t.dom = true) (hfail : failedOrEmpty outcome = true) :
    ∃ s', startAnalysisDeliver outcome t = .ok s' ∧
      s'.selectedFile = t.selectedFile ∧ s'.analysisResults = t.analysisResults ∧
      Dom.isActive "resultsScreen" s'.dom = true ∧ s'.matchCount = "0" ∧
      (s'.resultsContainer = [.noResultsMessage] ∨
        ∃ message, s'.resultsContainer = [.errorMessage message]) := by
  have hact := isActive_shown "resultsScreen" t.dom hpage
  have herr : ∀ message, ∃ s', showError message t = .ok s' ∧
      s'.selectedFile = t.selectedFile ∧ s'.analysisResults = t.analysisResults ∧
      Dom.isActive "resultsScreen" s'.dom = true ∧ s'.matchCount = "0" ∧
      (s'.resultsContainer = [.noResultsMessage] ∨
        ∃ message, s'.resultsContainer = [.errorMessage message]) := by
    intro message
    exact ⟨_, showError_of_hasElement message t hpage, rfl, rfl, hact, rfl, Or.inr ⟨message, rfl⟩⟩
  have hnone := showNoResults_of_hasElement
    { t with progressFillWidth := "100%", loadingText := "Análisis completado!" } hpage
  cases outcome with
  | networkError message =>
    simpa [startAnalysisDeliver, analyzeAudioSimilarity] using herr _
  | invalidJson ok message =>
    simpa [startAnalysisDeliver, analyzeAudioSimilarity] using herr _
  | json ok data =>
    cases ok with
    | false => simpa [startAnalysisDeliver, analyzeAudioSimilarity] using herr _
    | true =>
      by_cases hstatus : data.status = some "ok"
      · have hempty : data.results = none ∨ data.results = some [] := by
          simp only [failedOrEmpty, hstatus, bne_self_eq_false, Bool.not_true, Bool.or_self,
            Bool.false_or, List.isEmpty_iff] at hfail
          cases hres : data.results with
          | none => exact Or.inl rfl
          | some l =>
            rw [hres] at hfail
            exact Or.inr (by simpa using hfail)
        rcases hempty with hres | hres
        · simp only [startAnalysisDeliver, analyzeAudioSimilarity, hstatus, hres, if_true]
          rw [hnone]
          exact ⟨_, rfl, rfl, rfl, hact, rfl, Or.inl rfl⟩
        · simp only [startAnalysisDeliver, analyzeAudioSimilarity, hstatus, hres, if_true]
          rw [hnone]
          exact ⟨_, rfl, rfl, rfl, hact, rfl, Or.inl rfl⟩
      · simpa [startAnalysisDeliver, analyzeAudioSimilarity, hstatus] using herr _

/-- Audio variant: a failed or zero-result analysis ends on the Results screen with
the count 0 and a single message in the container, the file still selected. -/
theorem startAnalysis_audio_failure (s : AudioState) (file : File) (outcome : FetchOutcome AudioResult)
    (hfile : s.selectedFile = some file)
    (hloading : Dom.hasElement "loadingScreen" s.dom = true)
    (hresults : Dom.hasElement "resultsScreen" s.dom = true)
    (hfail : failedOrEmpty outcome = true) :
    ∃ s', startAnalysis outcome s = .ok s' ∧
      s'.selectedFile = some file ∧ s'.analysisResults = s.analysisResults ∧
      Dom.isActive "resultsScreen" s'.dom = true ∧ s'.matchCount = "0" ∧
      (s'.resultsContainer = [.noResultsMessage] ∨
        ∃ message, s'.resultsContainer = [.errorMessage message]) := by
  have h2 : Dom.hasElement "resultsScreen"
      (Dom.updateClassList "loadingScreen" (Dom.classListAdd "active") (hideScreens s.dom)) = true := by
    rw [hasElement_shown]
    exact hresults
  obtain ⟨s', hrun, h⟩ := startAnalysisDeliver_failure outcome
    (simulateAnalysisProgress
      { s with dom :=
          (Dom.updateClassList "loadingScreen" (Dom.classListAdd "active") (hideScreens s.dom)) })
    (by rw [simulateAnalysisProgress_audio_eq]; exact h2) hfail
  refine ⟨s', ?_, ?_⟩
  · unfold startAnalysis startAnalysisBegin
    rw [showScreen_of_hasElement _ _ hloading]
    simp only [hfile, Option.isNone_some, Bool.false_eq_true, if_false, bind, Except.bind, pure,
      Except.pure]
    simp only [hfile] at hrun
    exact hrun
  · rw [simulateAnalysisProgress_audio_eq] at h
    exact ⟨h.1.trans hfile, h.2⟩

end AudioHandler

namespace ImageHandler

theorem simulateAnalysisProgress_image_eq (s : ImageState) :
    simulateAnalysisProgress s = { s with progressFillWidth := "100%", progressText := "100%" } := by
  rfl

theorem showResults_selectedFile (now : Int) (random : Nat) (s : ImageState) :
    (showResults now random s).selectedFile = s.selectedFile := by
  unfold showResults
  split
  · rfl
  · rfl
  · simp only [displayAdditionalMatches]
    split <;> rfl

/-- Image variant: `startAnalysis` never changes `selectedFile`, however the
request ends. -/
theorem startAnalysis_selectedFile (start : Int) (outcome : FetchOutcome ImageResult) (now : Int)
    (random : Nat) (s : ImageState) :
    (startAnalysis start outcome now random s).selectedFile = s.selectedFile := by
  unfold startAnalysis
  split
  · rfl
  · unfold startAnalysisDeliver
    split
    · rw [showResults_selectedFile]
      rfl
    · split
      · rw [showResults_selectedFile]
        rfl
      · rfl

theorem fetchAnalysis_ok_of_failedOrEmpty (outcome : FetchOutcome ImageResult)
    (results : Option (List ImageResult)) (hok : fetchAnalysis outcome = .ok results)
    (hfail : failedOrEmpty outcome = true) : results = none ∨ results = some [] := by
  cases outcome with
  | networkError message => simp [fetchAnalysis] at hok
  | invalidJson ok message => simp [fetchAnalysis] at hok
  | json ok data =>
    simp only [fetchAnalysis] at hok
    split at hok
    · rename_i hcond
      simp only [Bool.and_eq_true, beq_iff_eq] at hcond
      have hres : data.results = results := by simpa using hok
      simp only [failedOrEmpty, hcond.1, hcond.2, bne_self_eq_false, Bool.not_true, Bool.or_self,
        Bool.false_or, List.isEmpty_iff] at hfail
      rw [hres] at hfail
      cases results with
      | none => exact Or.inl rfl
      | some l => exact Or.inr (by simpa using hfail)
    · simp at hok

/-- Image variant: a failed or zero-result analysis whose error message, if there
is one, does not contain `fetch` ends on the Error screen with a message, the file
still selected and the result area as it was. -/
theorem startAnalysis_image_failure (start : Int) (outcome : FetchOutcome ImageResult) (now : Int)
    (random : Nat) (s : ImageState) (file : File)
    (hfile : s.selectedFile = some file)
    (hpage : Dom.hasElement "errorSection" s.dom = true)
    (hfail : failedOrEmpty outcome = true)
    (hmsg : ∀ message, fetchAnalysis outcome = .error message → Js.includes message "fetch" = false) :
    (startAnalysis start outcome now random s).selectedFile = some file ∧
    Dom.isActive "errorSection" (startAnalysis start outcome now random s).dom = true ∧
    Dom.isActive "resultsSection" (startAnalysis start outcome now random s).dom = false ∧
    ((startAnalysis start outcome now random s).errorMessage = "No se encontraron imágenes similares" ∨
      ∃ message, fetchAnalysis outcome = .error message ∧
        (startAnalysis start outcome now random s).errorMessage =
          "Error en el análisis: " ++ message) ∧
    (startAnalysis start outcome now random s).bestMatch = s.bestMatch ∧
    (startAnalysis start outcome now random s).matchesList = s.matchesList := by
  have hpage2 : ∀ (message : String) (results : Option (List ImageResult)),
      Dom.hasElement "errorSection"
        ({ ({ startAnalysisBegin start s with analysisResults := results } : ImageState) with
            errorMessage := message } : ImageState).dom = true := by
    intro message results
    show Dom.hasElement "errorSection"
      (Dom.updateClassList "loadingSection" (Dom.classListAdd "active") _) = true
    rw [Dom.hasElement_updateClassList, hasElement_foldl_remove]
    exact hpage
  have hshow : ∀ (message : String) (results : Option (List ImageResult)),
      (showError message { startAnalysisBegin start s with analysisResults := results }).selectedFile =
        some file ∧
      Dom.isActive "errorSection"
        (showError message { startAnalysisBegin start s with analysisResults := results }).dom = true ∧
      Dom.isActive "resultsSection"
        (showError message { startAnalysisBegin start s with analysisResults := results }).dom = false ∧
      (showError message { startAnalysisBegin start s with analysisResults := results }).errorMessage =
        message ∧
      (showError message { startAnalysisBegin start s with analysisResults := results }).bestMatch =
        s.bestMatch ∧
      (showError message { startAnalysisBegin start s with analysisResults := results }).matchesList =
        s.matchesList := by
    intro message results
    have h := isActive_showScreen "errorSection" _ (hpage2 message results)
    exact ⟨hfile, h.1, h.2 "resultsSection" (by decide) (by decide), rfl, rfl, rfl⟩
  have hnot : s.selectedFile.isNone = false := by simp [hfile]
  unfold startAnalysis
  simp only [hnot, Bool.false_eq_true, if_false]
  unfold startAnalysisDeliver
  cases hfetch : fetchAnalysis outcome with
  | error message =>
    have hinc := hmsg message hfetch
    simp only [hinc, Bool.false_eq_true, if_false]
    have h := hshow ("Error en el análisis: " ++ message) (startAnalysisBegin start s).analysisResults
    exact ⟨h.1, h.2.1, h.2.2.1, Or.inr ⟨message, rfl, h.2.2.2.1⟩, h.2.2.2.2.1, h.2.2.2.2.2⟩
  | ok results =>
    have h := hshow "No se encontraron imágenes similares" results
    rcases fetchAnalysis_ok_of_failedOrEmpty outcome results hfetch hfail with hres | hres
    · subst hres
      exact ⟨h.1, h.2.1, h.2.2.1, Or.inl h.2.2.2.1, h.2.2.2.2.1, h.2.2.2.2.2⟩
    · subst hres
      exact ⟨h.1, h.2.1, h.2.2.1, Or.inl h.2.2.2.1, h.2.2.2.2.1, h.2.2.2.2.2⟩

end ImageHandler

/-- C4 as stated, refuted in the image variant: the request fails with the network
error `Failed to fetch`, a failed attempt, and the flow ends on the Results screen
with the three built-in results listed, not on the Error screen; no error message
is written. -/
theorem fetch_failure_shows_mock_results :
    failedOrEmpty (FetchOutcome.networkError "Failed to fetch" : FetchOutcome ImageHandler.ImageResult) =
      true ∧
    Dom.isActive "resultsSection"
      (ImageHandler.startAnalysis 0 (.networkError "Failed to fetch") 1500 42
        ImageHandler.fileChosen).dom = true ∧
    Dom.isActive "errorSection"
      (ImageHandler.startAnalysis 0 (.networkError "Failed to fetch") 1500 42
        ImageHandler.fileChosen).dom = false ∧
    (ImageHandler.startAnalysis 0 (.networkError "Failed to fetch") 1500 42
      ImageHandler.fileChosen).errorMessage = "" ∧
    (ImageHandler.startAnalysis 0 (.networkError "Failed to fetch") 1500 42
      ImageHandler.fileChosen).analysisResults = some ImageHandler.mockResults ∧
    (ImageHandler.startAnalysis 0 (.networkError "Failed to fetch") 1500 42
      ImageHandler.fileChosen).totalImages = "3" ∧
    ((ImageHandler.startAnalysis 0 (.networkError "Failed to fetch") 1500 42
      ImageHandler.fileChosen).bestMatch.map (fun c => c.name)) = some "Messi Portrait" ∧
    (ImageHandler.additionalMatches
      (ImageHandler.startAnalysis 0 (.networkError "Failed to fetch") 1500 42
        ImageHandler.fileChosen)).map (fun m => m.2.1) = ["Messi Action", "Messi Celebration"] :=
  ⟨by decide, by decide, by decide, by decide, rfl, by decide, by decide, by decide⟩

/-- C4, amended.  Audio variant, on a page with the Loading and Results screens and
a file selected: after a failed or zero-result analysis the handler returns, the
container holds the no-matches message or an error message and no result item, the
count shows 0, and the file is still selected.  Image variant, on a page with the
Error screen and a file selected: the same attempt ends on the Error screen with
the no-matches text or the error text and the result area untouched, provided the
error message, if any, does not contain `fetch`; and `selectedFile` is unchanged
whatever the outcome. -/
theorem analyze_failure_shows_message :
    (∀ (s : AudioHandler.AudioState) (file : File) (outcome : FetchOutcome AudioHandler.AudioResult),
      s.selectedFile = some file →
      Dom.hasElement "loadingScreen" s.dom = true →
      Dom.hasElement "resultsScreen" s.dom = true →
      failedOrEmpty outcome = true →
      ∃ s', AudioHandler.startAnalysis outcome s = .ok s' ∧
        s'.selectedFile = some file ∧
        Dom.isActive "resultsScreen" s'.dom = true ∧ s'.matchCount = "0" ∧
        AudioHandler.buttons s' = [] ∧
        (s'.resultsContainer = [.noResultsMessage] ∨
          ∃ message, s'.resultsContainer = [.errorMessage message])) ∧
    (∀ (start : Int) (outcome : FetchOutcome ImageHandler.ImageResult) (now : Int) (random : Nat)
        (s : ImageHandler.ImageState) (file : File),
      s.selectedFile = some file →
      Dom.hasElement "errorSection" s.dom = true →
      failedOrEmpty outcome = true →
      (∀ message, ImageHandler.fetchAnalysis outcome = .error message →
        Js.includes message "fetch" = false) →
      (ImageHandler.startAnalysis start outcome now random s).selectedFile = some file ∧
      Dom.isActive "errorSection" (ImageHandler.startAnalysis start outcome now random s).dom = true ∧
      Dom.isActive "resultsSection" (ImageHandler.startAnalysis start outcome now random s).dom =
        false ∧
      ((ImageHandler.startAnalysis start outcome now random s).errorMessage =
          "No se encontraron imágenes similares" ∨
        ∃ message, ImageHandler.fetchAnalysis outcome = .error message ∧
          (ImageHandler.startAnalysis start outcome now random s).errorMessage =
            "Error en el análisis: " ++ message) ∧
      (ImageHandler.startAnalysis start outcome now random s).bestMatch = s.bestMatch ∧
      (ImageHandler.startAnalysis start outcome now random s).matchesList = s.matchesList) ∧
    (∀ (start : Int) (outcome : FetchOutcome ImageHandler.ImageResult) (now : Int) (random : Nat)
        (s : ImageHandler.ImageState),
      (ImageHandler.startAnalysis start outcome now random s).selectedFile = s.selectedFile) := by
  refine ⟨?_, ?_, ?_⟩
  · intro s file outcome hfile hloading hresults hfail
    obtain ⟨s', hrun, hsel, _, hact, hcount, hbox⟩ :=
      AudioHandler.startAnalysis_audio_failure s file outcome hfile hloading hresults hfail
    refine ⟨s', hrun, hsel, hact, hcount, ?_, hbox⟩
    rcases hbox with hbox | ⟨message, hbox⟩ <;> simp [AudioHandler.buttons, hbox]
  · intro start outcome now random s file hfile hpage hfail hmsg
    exact ImageHandler.startAnalysis_image_failure start outcome now random s file hfile hpage hfail hmsg
  · intro start outcome now random s
    exact ImageHandler.startAnalysis_selectedFile start outcome now random s

/-- C4, amended, on concrete runs.  Audio: `song.mp3` is selected on the page as
loaded and the request fails with `Failed to fetch`.  Image: `photo.png` is
selected and the server answers with a response that is not OK and carries the
error text `Archivo no soportado`. -/
theorem analyze_failure_shows_message_witness :
    (∃ s', AudioHandler.startAnalysis (.networkError "Failed to fetch")
        (AudioHandler.processSelectedFile AudioHandler.sampleFile AudioHandler.initialState) = .ok s' ∧
      s'.selectedFile = some AudioHandler.sampleFile ∧
      Dom.isActive "resultsScreen" s'.dom = true ∧ s'.matchCount = "0" ∧
      AudioHandler.buttons s' = [] ∧
      (s'.resultsContainer = [.noResultsMessage] ∨
        ∃ message, s'.resultsContainer = [.errorMessage message])) ∧
    ((ImageHandler.startAnalysis 0
        (.json false { status := none, results := none, error := some "Archivo no soportado",
                       message := none })
        1500 42 ImageHandler.fileChosen).selectedFile = some ImageHandler.sampleFile ∧
      Dom.isActive "errorSection" (ImageHandler.startAnalysis 0
        (.json false { status := none, results := none, error := some "Archivo no soportado",
                       message := none })
        1500 42 ImageHandler.fileChosen).dom = true) :=
  ⟨analyze_failure_shows_message.1
      (AudioHandler.processSelectedFile AudioHandler.sampleFile AudioHandler.initialState)
      AudioHandler.sampleFile (.networkError "Failed to fetch") rfl (by decide) (by decide) rfl,
   have h := analyze_failure_shows_message.2.1 0
      (.json false { status := none, results := none, error := some "Archivo no soportado",
                     message := none })
      1500 42 ImageHandler.fileChosen ImageHandler.sampleFile rfl (by decide) rfl
      (by
        intro message hm
        have : message = "Archivo no soportado" := by
          simpa [ImageHandler.fetchAnalysis, Js.orElse] using hm.symm
        subst this
        decide)
   ⟨h.1, h.2.1⟩⟩


/-! ## Confidence tiers -/

namespace ImageHandler

/-- C19. Image variant.  For every similarity both functions pick the same tier: at
least 80 gives `confidence-high` and the green, from 60 up to 80 gives
`confidence-medium` and the yellow, below 60 gives `confidence-low` and the red;
and a larger similarity never gets a lower tier. -/
theorem confidence_tiers (similarity other : ℚ) :
    (80 ≤ similarity →
      getConfidenceClass similarity = "confidence-high" ∧
      getConfidenceColor similarity = "var(--success-green)") ∧
    (60 ≤ similarity → similarity < 80 →
      getConfidenceClass similarity = "confidence-medium" ∧
      getConfidenceColor similarity = "var(--warning-yellow)") ∧
    (similarity < 60 →
      getConfidenceClass similarity = "confidence-low" ∧
      getConfidenceColor similarity = "var(--accent-red)") ∧
    (similarity ≤ other →
      tierRank (getConfidenceClass similarity) ≤ tierRank (getConfidenceClass other)) := by
  refine ⟨?_, ?_, ?_, ?_⟩
  · intro h
    simp [getConfidenceClass, getConfidenceColor, h]
  · intro h1 h2
    have h3 : ¬ similarity ≥ 80 := not_le.mpr h2
    simp [getConfidenceClass, getConfidenceColor, h1, h3]
  · intro h
    have h1 : ¬ similarity ≥ 80 := not_le.mpr (lt_trans h (by norm_num))
    have h2 : ¬ similarity ≥ 60 := not_le.mpr h
    simp [getConfidenceClass, getConfidenceColor, h1, h2]
  · intro h
    unfold getConfidenceClass
    by_cases h1 : similarity ≥ 80
    · have h2 : other ≥ 80 := le_trans h1 h
      simp [h1, h2]
    · by_cases h3 : similarity ≥ 60
      · have h4 : other ≥ 60 := le_trans h3 h
        by_cases h5 : other ≥ 80
        · simp [h1, h3, h5, tierRank]
        · simp [h1, h3, h4, h5]
      · by_cases h5 : other ≥ 80
        · simp [h1, h3, h5, tierRank]
        · by_cases h4 : other ≥ 60
          · simp [h1, h3, h4, h5, tierRank]
          · simp [h1, h3, h4, h5]

/-- C19 at the similarities 95, 70 and 12: high, medium, low, in falling rank. -/
theorem confidence_tiers_witness :
    (getConfidenceClass 95 = "confidence-high" ∧ getConfidenceColor 95 = "var(--success-green)") ∧
    (getConfidenceClass 70 = "confidence-medium" ∧
      getConfidenceColor 70 = "var(--warning-yellow)") ∧
    (getConfidenceClass 12 = "confidence-low" ∧ getConfidenceColor 12 = "var(--accent-red)") ∧
    tierRank (getConfidenceClass 12) ≤ tierRank (getConfidenceClass 70) :=
  ⟨(confidence_tiers 95 95).1 (by norm_num),
   (confidence_tiers 70 70).2.1 (by norm_num) (by norm_num),
   (confidence_tiers 12 70).2.2.1 (by norm_num),
   (confidence_tiers 12 70).2.2.2 (by norm_num)⟩

end ImageHandler

/-! ## Failure classification of the image page -/

namespace Js

/-- The embedding of `includes` agrees with the reading "`p` is a substring": the
string is something, then `p`, then something. -/
theorem includes_iff (s p : String) :
    includes s p = true ↔ ∃ a b : String, s = a ++ p ++ b := by
  unfold includes
  simp only [List.any_eq_true, List.mem_tails, List.isPrefixOf_iff_prefix]
  constructor
  · rintro ⟨t, ⟨a, ha⟩, ⟨b, hb⟩⟩
    refine ⟨String.mk a, String.mk b, ?_⟩
    apply String.ext
    subst hb
    simpa using ha.symm
  · rintro ⟨a, b, rfl⟩
    exact ⟨p.toList ++ b.toList, ⟨a.toList, by simp⟩, ⟨b.toList, rfl⟩⟩

end Js

namespace ImageHandler

theorem hasElement_startAnalysisBegin (id : String) (start : Int) (s : ImageState) :
    Dom.hasElement id (startAnalysisBegin start s).dom = Dom.hasElement id s.dom := by
  show Dom.hasElement id (Dom.updateClassList "loadingSection" (Dom.classListAdd "active") _) = _
  rw [Dom.hasElement_updateClassList, hasElement_foldl_remove]

/-- When the attempt throws, the message is the one of the network error, of the
JSON parser, or the server's `error`, else `message`, else `Error desconocido`, of
a response that is not OK or whose status is not `ok`. -/
theorem fetchAnalysis_error_iff (outcome : FetchOutcome ImageResult) (m : String) :
    fetchAnalysis outcome = .error m ↔
      outcome = .networkError m ∨ (∃ ok, outcome = .invalidJson ok m) ∨
      ∃ ok data, outcome = .json ok data ∧ ¬ (ok = true ∧ data.status = some "ok") ∧
        m = Js.orElse data.error (Js.orElse data.message "Error desconocido") := by
  cases outcome with
  | networkError message => simp [fetchAnalysis]
  | invalidJson ok message => simp [fetchAnalysis]
  | json ok data =>
    simp only [fetchAnalysis]
    split
    · rename_i h
      simp only [Bool.and_eq_true, beq_iff_eq] at h
      simp [h]
    · rename_i h
      simp only [Bool.and_eq_true, beq_iff_eq] at h
      constructor
      · intro hm
        refine Or.inr (Or.inr ⟨ok, data, rfl, h, ?_⟩)
        simpa using hm.symm
      · rintro (hm | ⟨_, hm⟩ | ⟨ok2, data2, heq, _, hm⟩)
        · simp at hm
        · simp at hm
        · simp only [FetchOutcome.json.injEq] at heq
          obtain ⟨rfl, rfl⟩ := heq
          rw [hm]

/-- C13. Image variant, on a page that has the Results and the Error screen, with a
file selected.  When the attempt fails with message `m`: if `m` contains `fetch`,
`analysisResults` becomes the three built-in results and the Results screen is
shown, the Error screen is not, and no error text is written; otherwise the Error
screen is shown with `Error en el análisis: ` followed by `m`, the Results screen
is not, and `analysisResults` keeps its value.  So the Results screen is on show
afterwards exactly when `m` contains `fetch`. -/
theorem fetch_failure_classification (start : Int) (outcome : FetchOutcome ImageResult)
    (now : Int) (random : Nat) (s : ImageState) (file : File) (m : String)
    (hfile : s.selectedFile = some file)
    (hresults : Dom.hasElement "resultsSection" s.dom = true)
    (herror : Dom.hasElement "errorSection" s.dom = true)
    (hfail : fetchAnalysis outcome = .error m) :
    ((∃ a b : String, m = a ++ "fetch" ++ b) →
      (startAnalysis start outcome now random s).analysisResults = some mockResults ∧
      (startAnalysis start outcome now random s).totalImages = "3" ∧
      Dom.isActive "resultsSection" (startAnalysis start outcome now random s).dom = true ∧
      Dom.isActive "errorSection" (startAnalysis start outcome now random s).dom = false ∧
      (startAnalysis start outcome now random s).errorMessage = s.errorMessage) ∧
    (¬ (∃ a b : String, m = a ++ "fetch" ++ b) →
      (startAnalysis start outcome now random s).analysisResults = s.analysisResults ∧
      Dom.isActive "errorSection" (startAnalysis start outcome now random s).dom = true ∧
      Dom.isActive "resultsSection" (startAnalysis start outcome now random s).dom = false ∧
      (startAnalysis start outcome now random s).errorMessage = "Error en el análisis: " ++ m) ∧
    (Dom.isActive "resultsSection" (startAnalysis start outcome now random s).dom = true ↔
      ∃ a b : String, m = a ++ "fetch" ++ b) := by
  simp only [← Js.includes_iff]
  have hnot : s.selectedFile.isNone = false := by simp [hfile]
  have hrun : startAnalysis start outcome now random s =
      if Js.includes m "fetch" then
        showResults now random { startAnalysisBegin start s with analysisResults := some mockResults }
      else showError ("Error en el análisis: " ++ m) (startAnalysisBegin start s) := by
    unfold startAnalysis
    simp only [hnot, Bool.false_eq_true, if_false]
    unfold startAnalysisDeliver
    rw [hfail]
  have hmock : Js.includes m "fetch" = true →
      (startAnalysis start outcome now random s).analysisResults = some mockResults ∧
      (startAnalysis start outcome now random s).totalImages = "3" ∧
      Dom.isActive "resultsSection" (startAnalysis start outcome now random s).dom = true ∧
      Dom.isActive "errorSection" (startAnalysis start outcome now random s).dom = false ∧
      (startAnalysis start outcome now random s).errorMessage = s.errorMessage := by
    intro hinc
    rw [hrun, if_pos hinc]
    have h := isActive_showScreen "resultsSection"
      { startAnalysisBegin start s with analysisResults := some mockResults }
      (by
        show Dom.hasElement "resultsSection" (startAnalysisBegin start s).dom = true
        rw [hasElement_startAnalysisBegin]
        exact hresults)
    exact ⟨rfl, rfl, h.1, h.2 "errorSection" (by decide) (by decide), rfl⟩
  have hother : ¬ Js.includes m "fetch" = true →
      (startAnalysis start outcome now random s).analysisResults = s.analysisResults ∧
      Dom.isActive "errorSection" (startAnalysis start outcome now random s).dom = true ∧
      Dom.isActive "resultsSection" (startAnalysis start outcome now random s).dom = false ∧
      (startAnalysis start outcome now random s).errorMessage = "Error en el análisis: " ++ m := by
    intro hinc
    rw [hrun, if_neg hinc]
    have h := isActive_showScreen "errorSection"
      { startAnalysisBegin start s with errorMessage := "Error en el análisis: " ++ m }
      (by
        show Dom.hasElement "errorSection" (startAnalysisBegin start s).dom = true
        rw [hasElement_startAnalysisBegin]
        exact herror)
    exact ⟨rfl, h.1, h.2 "resultsSection" (by decide) (by decide), rfl⟩
  refine ⟨hmock, hother, ?_⟩
  constructor
  · intro hact
    by_contra hinc
    rw [(hother hinc).2.2.1] at hact
    exact Bool.false_ne_true hact
  · intro hinc
    exact (hmock hinc).2.2.1

/-- C13 on two failures after `photo.png` was selected: the network error `Failed
to fetch` ends on the Results screen with the built-in results, and a response that
is not OK with the server text `Formato no soportado` ends on the Error screen. -/
theorem fetch_failure_classification_witness :
    ((startAnalysis 0 (.networkError "Failed to fetch") 1500 42 fileChosen).analysisResults =
        some mockResults ∧
      Dom.isActive "resultsSection"
        (startAnalysis 0 (.networkError "Failed to fetch") 1500 42 fileChosen).dom = true) ∧
    (Dom.isActive "errorSection"
        (startAnalysis 0
          (.json false { status := none, results := none, error := some "Formato no soportado",
                         message := none })
          1500 42 fileChosen).dom = true ∧
      (startAnalysis 0
          (.json false { status := none, results := none, error := some "Formato no soportado",
                         message := none })
          1500 42 fileChosen).errorMessage = "Error en el análisis: Formato no soportado") :=
  have h1 := (fetch_failure_classification 0 (.networkError "Failed to fetch") 1500 42 fileChosen
    sampleFile "Failed to fetch" rfl (by decide) (by decide) rfl).1 ⟨"Failed to ", "", by decide⟩
  have h2 := (fetch_failure_classification 0
    (.json false { status := none, results := none, error := some "Formato no soportado",
                   message := none })
    1500 42 fileChosen sampleFile "Formato no soportado" rfl (by decide) (by decide) rfl).2.1
    (by rw [← Js.includes_iff]; decide)
  ⟨⟨h1.1, h1.2.2.1⟩, ⟨h2.2.1, h2.2.2.2⟩⟩

end ImageHandler

/-! ## A response that arrives after a reset -/

/-- C14. In both variants there is such a sequence.  A valid file is selected,
analyze is started, and `resetToUpload` runs while the request is in flight: the
Upload screen is on show, no file is selected and no results are kept.  Then the
response arrives with two results: `analysisResults` holds them and the Results
screen is on show, the Upload screen is not, and `selectedFile` is still null. -/
theorem stale_response_after_reset :
    (Dom.isActive "uploadScreen" AudioHandler.resetInFlight.dom = true ∧
      AudioHandler.resetInFlight.selectedFile = none ∧
      AudioHandler.resetInFlight.analysisResults = [] ∧
      AudioHandler.staleDelivery.analysisResults.length = 2 ∧
      (AudioHandler.buttons AudioHandler.staleDelivery).map (fun b => b.dataId) = [1, 2] ∧
      Dom.isActive "resultsScreen" AudioHandler.staleDelivery.dom = true ∧
      Dom.isActive "uploadScreen" AudioHandler.staleDelivery.dom = false ∧
      AudioHandler.staleDelivery.selectedFile = none) ∧
    (Dom.isActive "uploadSection" ImageHandler.resetInFlight.dom = true ∧
      ImageHandler.resetInFlight.selectedFile = none ∧
      ImageHandler.resetInFlight.analysisResults = some [] ∧
      ImageHandler.staleDelivery.analysisResults.map List.length = some 2 ∧
      ImageHandler.staleDelivery.totalImages = "2" ∧
      Dom.isActive "resultsSection" ImageHandler.staleDelivery.dom = true ∧
      Dom.isActive "uploadSection" ImageHandler.staleDelivery.dom = false ∧
      ImageHandler.staleDelivery.selectedFile = none) := by
  refine ⟨⟨?_, ?_, ?_, ?_, ?_, ?_, ?_, ?_⟩, ⟨?_, ?_, ?_, ?_, ?_, ?_, ?_, ?_⟩⟩ <;> decide

/-! ## Exactly one screen on show -/

namespace Dom

theorem mem_classListAdd (c cls : String) (l : List String) :
    c ∈ classListAdd cls l ↔ c ∈ l ∨ c = cls := by
  unfold classListAdd
  split
  · rename_i h
    have hmem : cls ∈ l := by simpa using h
    constructor
    · exact Or.inl
    · rintro (h1 | h1)
      · exact h1
      · exact h1 ▸ hmem
  · simp

theorem mem_classListRemove (c cls : String) (l : List String) :
    c ∈ classListRemove cls l ↔ c ∈ l ∧ c ≠ cls := by
  simp [classListRemove]

end Dom

namespace AudioHandler

theorem activeScreens_hideScreens (dom : List Element) : activeScreens (hideScreens dom) = [] := by
  unfold activeScreens hideScreens
  rw [List.filter_eq_nil_iff]
  intro e he
  obtain ⟨x, _, rfl⟩ := List.mem_map.mp he
  by_cases hx : x.classList.contains "hologram-screen" = true
  · simp only [hx, if_true]
    have hr : "active" ∉ Dom.classListRemove "active" x.classList := by
      simpa using Dom.contains_classListRemove "active" x.classList
    simp [hr]
  · simp only [hx, if_false]
    have hn : "hologram-screen" ∉ x.classList := by simpa using hx
    simp [hn]

theorem isScreen_hideScreens (i : String) (dom : List Element) :
    isScreen i (hideScreens dom) = isScreen i dom := by
  unfold isScreen
  rw [getElementById_hideScreens]
  cases hget : Dom.getElementById i dom with
  | none => rfl
  | some e =>
    by_cases he : e.classList.contains "hologram-screen" = true
    · simp only [Option.map_some', he, if_true]
      have h1 : "hologram-screen" ∈ e.classList := by simpa using he
      have h2 : "hologram-screen" ∈ Dom.classListRemove "active" e.classList :=
        (Dom.mem_classListRemove _ _ _).mpr ⟨h1, by decide⟩
      simpa using h2
    · have hn : "hologram-screen" ∉ e.classList := by simpa using he
      simp [hn]

theorem isScreen_updateClassList_add (i j : String) (dom : List Element) :
    isScreen i (Dom.updateClassList j (Dom.classListAdd "active") dom) = isScreen i dom := by
  unfold isScreen
  rw [Dom.getElementById_updateClassList]
  by_cases hij : i = j
  · simp only [hij, if_true]
    cases hget : Dom.getElementById j dom with
    | none => rfl
    | some e =>
      simp only [Option.map_some']
      rw [Bool.eq_iff_iff]
      simp [Dom.mem_classListAdd]
  · simp only [hij, if_false]

/-- The screens of the page are the same elements after `showScreen`. -/
theorem isScreen_shown (i j : String) (dom : List Element) :
    isScreen i (Dom.updateClassList j (Dom.classListAdd "active") (hideScreens dom)) =
      isScreen i dom := by
  rw [isScreen_updateClassList_add, isScreen_hideScreens]

theorem hasElement_of_isScreen (i : String) (dom : List Element) (h : isScreen i dom = true) :
    Dom.hasElement i dom = true := by
  unfold isScreen at h
  unfold Dom.hasElement
  cases hget : Dom.getElementById i dom with
  | none => simp [hget] at h
  | some e => rfl

theorem activeScreens_updateClassList_add (id : String) (dom : List Element)
    (hnone : activeScreens dom = []) (hscreen : isScreen id dom = true) :
    (activeScreens (Dom.updateClassList id (Dom.classListAdd "active") dom)).length = 1 := by
  induction dom with
  | nil => simp [isScreen, Dom.getElementById] at hscreen
  | cons e es ih =>
    unfold activeScreens at hnone ih ⊢
    rw [List.filter_eq_nil_iff] at hnone
    have hes : List.filter
        (fun e => e.classList.contains "hologram-screen" && e.classList.contains "active") es = [] := by
      rw [List.filter_eq_nil_iff]
      intro x hx
      exact hnone x (List.mem_cons_of_mem e hx)
    by_cases hid : e.id = id
    · have hholo : "hologram-screen" ∈ e.classList := by
        simpa [isScreen, Dom.getElementById, List.find?_cons, hid] using hscreen
      have h1 : "hologram-screen" ∈ Dom.classListAdd "active" e.classList :=
        (Dom.mem_classListAdd _ _ _).mpr (Or.inl hholo)
      have h2 : "active" ∈ Dom.classListAdd "active" e.classList :=
        (Dom.mem_classListAdd _ _ _).mpr (Or.inr rfl)
      simp [Dom.updateClassList, hid, List.filter_cons, h1, h2]
      intro a ha
      simpa using hnone a (List.mem_cons_of_mem e ha)
    · have he := hnone e (List.mem_cons_self e es)
      have hscreen2 : isScreen id es = true := by
        have hb : (e.id == id) = false := by simpa using hid
        simpa [isScreen, Dom.getElementById, List.find?_cons, hb] using hscreen
      have := ih hes hscreen2
      simp only [Dom.updateClassList, hid, if_false, List.filter_cons]
      simp only [Bool.not_eq_true] at he
      rw [he]
      simpa using this

/-- After `showScreen(id)` for the id of a screen, exactly one screen is active. -/
theorem activeScreens_shown (id : String) (dom : List Element) (hscreen : isScreen id dom = true) :
    (activeScreens (Dom.updateClassList id (Dom.classListAdd "active") (hideScreens dom))).length =
      1 := by
  apply activeScreens_updateClassList_add
  · exact activeScreens_hideScreens dom
  · rw [isScreen_hideScreens]
    exact hscreen

end AudioHandler

namespace AudioHandler

theorem pauseCurrentAudio_dom (s : AudioState) : (pauseCurrentAudio s).dom = s.dom := by
  unfold pauseCurrentAudio
  split
  · split <;> rfl
  · rfl

theorem showScreen_one (id : String) (s : AudioState) (h : isScreen id s.dom = true) :
    ∃ s', showScreen id s = .ok s' ∧ (activeScreens s'.dom).length = 1 ∧
      ∀ i, isScreen i s'.dom = isScreen i s.dom :=
  ⟨_, showScreen_of_hasElement id s (hasElement_of_isScreen id s.dom h),
    activeScreens_shown id s.dom h, fun i => isScreen_shown i id s.dom⟩

theorem showError_one (message : String) (s : AudioState)
    (h : isScreen "resultsScreen" s.dom = true) :
    ∃ s', showError message s = .ok s' ∧ (activeScreens s'.dom).length = 1 ∧
      ∀ i, isScreen i s'.dom = isScreen i s.dom :=
  ⟨_, showError_of_hasElement message s (hasElement_of_isScreen _ s.dom h),
    activeScreens_shown _ s.dom h, fun i => isScreen_shown i _ s.dom⟩

theorem showNoResults_one (s : AudioState) (h : isScreen "resultsScreen" s.dom = true) :
    ∃ s', showNoResults s = .ok s' ∧ (activeScreens s'.dom).length = 1 ∧
      ∀ i, isScreen i s'.dom = isScreen i s.dom :=
  ⟨_, showNoResults_of_hasElement s (hasElement_of_isScreen _ s.dom h),
    activeScreens_shown _ s.dom h, fun i => isScreen_shown i _ s.dom⟩

theorem showResults_one (s : AudioState) (h : isScreen "resultsScreen" s.dom = true) :
    ∃ s', showResults s = .ok s' ∧ (activeScreens s'.dom).length = 1 ∧
      ∀ i, isScreen i s'.dom = isScreen i s.dom := by
  unfold showResults
  rw [showScreen_of_hasElement _ _ (hasElement_of_isScreen _ s.dom h)]
  simp only [bind, Except.bind, pure, Except.pure]
  split
  · obtain ⟨s', hrun, hone, hsame⟩ := showNoResults_one
      { s with
        dom := Dom.updateClassList "resultsScreen" (Dom.classListAdd "active") (hideScreens s.dom)
        matchCount := toString s.analysisResults.length
        resultsContainer := [] }
      (by rw [isScreen_shown]; exact h)
    exact ⟨s', hrun, hone, fun i => (hsame i).trans (isScreen_shown i _ s.dom)⟩
  · rw [foldl_appendChild]
    exact ⟨_, rfl, activeScreens_shown _ s.dom h, fun i => isScreen_shown i _ s.dom⟩

theorem resetToUpload_one (s : AudioState) (h : isScreen "uploadScreen" s.dom = true) :
    ∃ s', resetToUpload s = .ok s' ∧ (activeScreens s'.dom).length = 1 ∧
      ∀ i, isScreen i s'.dom = isScreen i s.dom := by
  have hdom := pauseCurrentAudio_dom s
  unfold resetToUpload
  obtain ⟨s', hrun, hone, hsame⟩ := showScreen_one "uploadScreen"
    { pauseCurrentAudio s with
      selectedFile := none
      audioFileValue := ""
      selectedFileDisplay := "none"
      analyzeBtnDisabled := true
      analysisResults := [] }
    (by
      show isScreen "uploadScreen" (pauseCurrentAudio s).dom = true
      rw [hdom]
      exact h)
  refine ⟨s', hrun, hone, fun i => ?_⟩
  rw [hsame i]
  show isScreen i (pauseCurrentAudio s).dom = isScreen i s.dom
  rw [hdom]

theorem startAnalysisDeliver_one (outcome : FetchOutcome AudioResult) (t : AudioState)
    (h : isScreen "resultsScreen" t.dom = true) :
    ∃ s', startAnalysisDeliver outcome t = .ok s' ∧ (activeScreens s'.dom).length = 1 ∧
      ∀ i, isScreen i s'.dom = isScreen i t.dom := by
  have hdone : ∀ t' : AudioState, t'.dom = t.dom →
      ∃ s', showNoResults t' = .ok s' ∧ (activeScreens s'.dom).length = 1 ∧
        ∀ i, isScreen i s'.dom = isScreen i t.dom := by
    intro t' ht
    obtain ⟨s', hrun, hone, hsame⟩ := showNoResults_one t' (by rw [ht]; exact h)
    exact ⟨s', hrun, hone, fun i => by rw [hsame i, ht]⟩
  have hlist : ∀ t' : AudioState, t'.dom = t.dom →
      ∃ s', showResults t' = .ok s' ∧ (activeScreens s'.dom).length = 1 ∧
        ∀ i, isScreen i s'.dom = isScreen i t.dom := by
    intro t' ht
    obtain ⟨s', hrun, hone, hsame⟩ := showResults_one t' (by rw [ht]; exact h)
    exact ⟨s', hrun, hone, fun i => by rw [hsame i, ht]⟩
  have herr := fun message => showError_one message t h
  unfold startAnalysisDeliver
  cases hfetch : analyzeAudioSimilarity outcome t with
  | error message =>
    simp only []
    exact herr _
  | ok pair =>
    obtain ⟨t', results⟩ := pair
    have ht : t'.dom = t.dom := by
      cases outcome with
      | networkError message => simp [analyzeAudioSimilarity] at hfetch
      | invalidJson ok message => simp [analyzeAudioSimilarity] at hfetch
      | json ok data =>
        cases ok with
        | false => simp [analyzeAudioSimilarity] at hfetch
        | true =>
          simp only [analyzeAudioSimilarity] at hfetch
          split at hfetch
          · simp only [Except.ok.injEq, Prod.mk.injEq] at hfetch
            rw [← hfetch.1]
          · simp at hfetch
    cases results with
    | none =>
      obtain ⟨s', hrun, hrest⟩ := hdone t' ht
      simp only [hrun]
      exact ⟨s', rfl, hrest⟩
    | some l =>
      cases l with
      | nil =>
        obtain ⟨s', hrun, hrest⟩ := hdone t' ht
        simp only [hrun]
        exact ⟨s', rfl, hrest⟩
      | cons r rs =>
        obtain ⟨s', hrun, hrest⟩ := hlist { t' with analysisResults := r :: rs } ht
        simp only [hrun]
        exact ⟨s', rfl, hrest⟩

theorem startAnalysis_one (outcome : FetchOutcome AudioResult) (s : AudioState)
    (hloading : isScreen "loadingScreen" s.dom = true)
    (hresults : isScreen "resultsScreen" s.dom = true)
    (hone : (activeScreens s.dom).length = 1) :
    ∃ s', startAnalysis outcome s = .ok s' ∧ (activeScreens s'.dom).length = 1 := by
  unfold startAnalysis
  split
  · exact ⟨s, rfl, hone⟩
  · unfold startAnalysisBegin
    rw [showScreen_of_hasElement _ _ (hasElement_of_isScreen _ s.dom hloading)]
    simp only [bind, Except.bind, pure, Except.pure, simulateAnalysisProgress_audio_eq]
    obtain ⟨s', hrun, hone', _⟩ := startAnalysisDeliver_one outcome
      { s with
        dom := Dom.updateClassList "loadingScreen" (Dom.classListAdd "active") (hideScreens s.dom)
        loadingText := "Procesando resultados..."
        progressFillWidth := "90%" }
      (by rw [isScreen_shown]; exact hresults)
    exact ⟨s', hrun, hone'⟩

end AudioHandler

namespace ImageHandler

theorem hasElement_showScreen (i id : String) (s : ImageState) :
    Dom.hasElement i (showScreen id s).dom = Dom.hasElement i s.dom := by
  show Dom.hasElement i (Dom.updateClassList id (Dom.classListAdd "active") _) = _
  rw [Dom.hasElement_updateClassList, hasElement_foldl_remove]

/-- After `showScreen(id)` for one of the four screens, it is the only active one. -/
theorem activeScreens_showScreen (id : String) (s : ImageState) (hmem : id ∈ screens)
    (h : Dom.hasElement id s.dom = true) : activeScreens (showScreen id s).dom = [id] := by
  have hact := isActive_showScreen id s h
  have h1 := hact.1
  have h2 := hact.2
  unfold activeScreens
  simp only [screens, List.mem_cons, List.mem_singleton, List.not_mem_nil, or_false] at hmem
  rcases hmem with rfl | rfl | rfl | rfl
  · have ha := h2 "loadingSection" (by decide) (by decide)
    have hb := h2 "resultsSection" (by decide) (by decide)
    have hc := h2 "errorSection" (by decide) (by decide)
    simp [screens, List.filter_cons, h1, ha, hb, hc]
  · have ha := h2 "uploadSection" (by decide) (by decide)
    have hb := h2 "resultsSection" (by decide) (by decide)
    have hc := h2 "errorSection" (by decide) (by decide)
    simp [screens, List.filter_cons, h1, ha, hb, hc]
  · have ha := h2 "uploadSection" (by decide) (by decide)
    have hb := h2 "loadingSection" (by decide) (by decide)
    have hc := h2 "errorSection" (by decide) (by decide)
    simp [screens, List.filter_cons, h1, ha, hb, hc]
  · have ha := h2 "uploadSection" (by decide) (by decide)
    have hb := h2 "loadingSection" (by decide) (by decide)
    have hc := h2 "resultsSection" (by decide) (by decide)
    simp [screens, List.filter_cons, h1, ha, hb, hc]

theorem showResults_dom (now : Int) (random : Nat) (s : ImageState) :
    ((s.analysisResults = none ∨ s.analysisResults = some []) ∧
      (showResults now random s).dom = (showScreen "errorSection" s).dom) ∨
    ((∃ r rs, s.analysisResults = some (r :: rs)) ∧
      (showResults now random s).dom = (showScreen "resultsSection" s).dom) := by
  unfold showResults
  split
  · rename_i h
    exact Or.inl ⟨Or.inl h, rfl⟩
  · rename_i h
    exact Or.inl ⟨Or.inr h, rfl⟩
  · rename_i best rest h
    refine Or.inr ⟨⟨best, rest, h⟩, ?_⟩
    simp only [displayAdditionalMatches]
    split <;> rfl

theorem startAnalysisDeliver_dom (outcome : FetchOutcome ImageResult) (now : Int) (random : Nat)
    (s : ImageState) :
    (startAnalysisDeliver outcome now random s).dom = (showScreen "errorSection" s).dom ∨
    (startAnalysisDeliver outcome now random s).dom = (showScreen "resultsSection" s).dom := by
  unfold startAnalysisDeliver
  split
  · rename_i results _
    rcases showResults_dom now random { s with analysisResults := results } with h | h
    · exact Or.inl h.2
    · exact Or.inr h.2
  · split
    · rcases showResults_dom now random { s with analysisResults := some mockResults } with h | h
      · exact Or.inl h.2
      · exact Or.inr h.2
    · exact Or.inl rfl

end ImageHandler

/-- C11 as stated, refuted: on the pages as loaded exactly one screen is active;
after `showScreen('inicio')`, an id no element has, none is.  The image variant
skips the activation, the audio variant throws after hiding every screen. -/
theorem showScreen_unknown_id_hides_all :
    (ImageHandler.activeScreens ImageHandler.initialState.dom).length = 1 ∧
    (ImageHandler.activeScreens (ImageHandler.showScreen "inicio" ImageHandler.initialState).dom).length =
      0 ∧
    (AudioHandler.activeScreens AudioHandler.initialState.dom).length = 1 ∧
    (AudioHandler.activeScreens
      (Js.settle (AudioHandler.showScreen "inicio" AudioHandler.initialState)).dom).length = 0 := by
  decide

/-- C11, amended: `showScreen` is called with the id of a screen.  Audio variant, on
a page whose Upload, Loading and Results elements are screens, with exactly one
screen active: after `processSelectedFile`, `startAnalysis`, `showResults`,
`showNoResults`, `showError`, `resetToUpload`, and `showScreen` with the id of a
screen, the handler has returned and exactly one screen is active.  Image variant,
on a page that has the four screens, with exactly one active: the same after
`processSelectedFile`, `startAnalysis`, `showResults`, `showError`, `resetToUpload`,
and `showScreen` with one of the four ids. -/
theorem screens_exactly_one :
    (∀ s : AudioHandler.AudioState,
      AudioHandler.isScreen "uploadScreen" s.dom = true →
      AudioHandler.isScreen "loadingScreen" s.dom = true →
      AudioHandler.isScreen "resultsScreen" s.dom = true →
      (AudioHandler.activeScreens s.dom).length = 1 →
      (∀ file, (AudioHandler.activeScreens (AudioHandler.processSelectedFile file s).dom).length = 1) ∧
      (∀ outcome, ∃ s', AudioHandler.startAnalysis outcome s = .ok s' ∧
        (AudioHandler.activeScreens s'.dom).length = 1) ∧
      (∃ s', AudioHandler.showResults s = .ok s' ∧ (AudioHandler.activeScreens s'.dom).length = 1) ∧
      (∃ s', AudioHandler.showNoResults s = .ok s' ∧
        (AudioHandler.activeScreens s'.dom).length = 1) ∧
      (∀ message, ∃ s', AudioHandler.showError message s = .ok s' ∧
        (AudioHandler.activeScreens s'.dom).length = 1) ∧
      (∃ s', AudioHandler.resetToUpload s = .ok s' ∧
        (AudioHandler.activeScreens s'.dom).length = 1) ∧
      (∀ id, AudioHandler.isScreen id s.dom = true →
        ∃ s', AudioHandler.showScreen id s = .ok s' ∧
          (AudioHandler.activeScreens s'.dom).length = 1)) ∧
    (∀ s : ImageHandler.ImageState,
      (∀ id ∈ ImageHandler.screens, Dom.hasElement id s.dom = true) →
      (ImageHandler.activeScreens s.dom).length = 1 →
      (∀ file, (ImageHandler.activeScreens (ImageHandler.processSelectedFile file s).dom).length = 1) ∧
      (∀ start outcome now random,
        (ImageHandler.activeScreens
          (ImageHandler.startAnalysis start outcome now random s).dom).length = 1) ∧
      (∀ now random,
        (ImageHandler.activeScreens (ImageHandler.showResults now random s).dom).length = 1) ∧
      (∀ message, (ImageHandler.activeScreens (ImageHandler.showError message s).dom).length = 1) ∧
      (ImageHandler.activeScreens (ImageHandler.resetToUpload s).dom).length = 1 ∧
      (∀ id ∈ ImageHandler.screens,
        (ImageHandler.activeScreens (ImageHandler.showScreen id s).dom).length = 1)) := by
  constructor
  · intro s hupload hloading hresults hone
    refine ⟨?_, ?_, ?_, ?_, ?_, ?_, ?_⟩
    · intro file
      have hdom : (AudioHandler.processSelectedFile file s).dom = s.dom := by
        unfold AudioHandler.processSelectedFile
        split <;> rfl
      rw [hdom]
      exact hone
    · intro outcome
      exact AudioHandler.startAnalysis_one outcome s hloading hresults hone
    · obtain ⟨s', hrun, h, _⟩ := AudioHandler.showResults_one s hresults
      exact ⟨s', hrun, h⟩
    · obtain ⟨s', hrun, h, _⟩ := AudioHandler.showNoResults_one s hresults
      exact ⟨s', hrun, h⟩
    · intro message
      obtain ⟨s', hrun, h, _⟩ := AudioHandler.showError_one message s hresults
      exact ⟨s', hrun, h⟩
    · obtain ⟨s', hrun, h, _⟩ := AudioHandler.resetToUpload_one s hupload
      exact ⟨s', hrun, h⟩
    · intro id hid
      obtain ⟨s', hrun, h, _⟩ := AudioHandler.showScreen_one id s hid
      exact ⟨s', hrun, h⟩
  · intro s hpage hone
    have hshow : ∀ id ∈ ImageHandler.screens, ∀ t : ImageHandler.ImageState, t.dom = s.dom →
        (ImageHandler.activeScreens (ImageHandler.showScreen id t).dom).length = 1 := by
      intro id hid t ht
      rw [ImageHandler.activeScreens_showScreen id t hid (by rw [ht]; exact hpage id hid)]
      rfl
    have herr := hshow "errorSection" (by decide)
    have hres := hshow "resultsSection" (by decide)
    have hshown : ∀ now random, ∀ t : ImageHandler.ImageState, t.dom = s.dom →
        (ImageHandler.activeScreens (ImageHandler.showResults now random t).dom).length = 1 := by
      intro now random t ht
      rcases ImageHandler.showResults_dom now random t with h | h
      · rw [h.2]
        exact herr t ht
      · rw [h.2]
        exact hres t ht
    refine ⟨?_, ?_, ?_, ?_, ?_, ?_⟩
    · intro file
      unfold ImageHandler.processSelectedFile
      split
      · exact herr _ rfl
      · split
        · exact herr _ rfl
        · exact hone
    · intro start outcome now random
      unfold ImageHandler.startAnalysis
      split
      · exact herr _ rfl
      · have hbegin : ∀ id ∈ ImageHandler.screens,
            Dom.hasElement id (ImageHandler.startAnalysisBegin start s).dom = true := by
          intro id hid
          rw [ImageHandler.hasElement_startAnalysisBegin]
          exact hpage id hid
        rcases ImageHandler.startAnalysisDeliver_dom outcome now random
          (ImageHandler.startAnalysisBegin start s) with h | h
        · rw [h, ImageHandler.activeScreens_showScreen _ _ (by decide)
            (hbegin "errorSection" (by decide))]
          rfl
        · rw [h, ImageHandler.activeScreens_showScreen _ _ (by decide)
            (hbegin "resultsSection" (by decide))]
          rfl
    · intro now random
      exact hshown now random s rfl
    · intro message
      exact herr _ rfl
    · exact hshow "uploadSection" (by decide) s rfl
    · intro id hid
      exact hshow id hid s rfl

/-- C11, amended, on the pages as loaded: the audio `resetToUpload` returns with one
screen active, and so does the image `showError`. -/
theorem screens_exactly_one_witness :
    (∃ s', AudioHandler.resetToUpload AudioHandler.initialState = .ok s' ∧
      (AudioHandler.activeScreens s'.dom).length = 1) ∧
    (ImageHandler.activeScreens
      (ImageHandler.showError "aviso" ImageHandler.initialState).dom).length = 1 :=
  ⟨(screens_exactly_one.1 AudioHandler.initialState (by decide) (by decide) (by decide)
      (by decide)).2.2.2.2.2.1,
   (screens_exactly_one.2 ImageHandler.initialState (by decide) (by decide)).2.2.2.1 "aviso"⟩

/-! ## The screens as a state machine (image page) -/

namespace ImageHandler

theorem currentScreen_eq_some (dom : List Element) (a : String) :
    currentScreen dom = some a ↔ activeScreens dom = [a] := by
  unfold currentScreen
  split
  · rename_i id h
    rw [h]
    simp
  · rename_i h
    constructor
    · intro h2
      simp at h2
    · intro h2
      exact absurd h2 (h a)

/-- A page whose class lists are those `showScreen(id)` leaves, for one of the four
screens, is on that screen. -/
theorem onScreen_of_showScreen (page t : ImageState) (n : Nat) (id : String)
    (hid : id ∈ screens) (ht : ∀ i ∈ screens, Dom.hasElement i t.dom = true)
    (hdom : page.dom = (showScreen id t).dom) :
    Flow.onScreen { page := page, inFlight := n } id := by
  refine ⟨?_, ?_⟩
  · intro i hi
    show Dom.hasElement i page.dom = true
    rw [hdom, hasElement_showScreen]
    exact ht i hi
  · show currentScreen page.dom = some id
    rw [hdom, currentScreen_eq_some]
    exact activeScreens_showScreen id t hid (ht id hid)

/-- A page is on one screen at most. -/
theorem onScreen_unique (f : Flow) (a b : String) (ha : Flow.onScreen f a)
    (hb : Flow.onScreen f b) : a = b := by
  have h := ha.2.symm.trans hb.2
  exact Option.some.inj h

/-- The screen a file selection leaves: the one on show, or Error for a file that
is no image or is larger than 16 MB. -/
theorem selectFile_onScreen (f : Flow) (a : String) (file : File) (hon : Flow.onScreen f a) :
    Flow.onScreen (f.step (.selectFile file))
      (if Js.startsWith file.type "image/" = true ∧ file.size ≤ 16 * 1024 * 1024 then a
       else "errorSection") := by
  show Flow.onScreen { f with page := processSelectedFile file f.page } _
  unfold processSelectedFile
  by_cases htype : Js.startsWith file.type "image/" = true
  · by_cases hsize : file.size > 16 * 1024 * 1024
    · have hcond : ¬ (Js.startsWith file.type "image/" = true ∧ file.size ≤ 16 * 1024 * 1024) :=
        fun h => absurd h.2 (by omega)
      rw [if_neg hcond]
      simp only [htype, Bool.not_true, Bool.false_eq_true, if_false, hsize, if_true]
      exact onScreen_of_showScreen _
        { f.page with errorMessage := "El archivo es demasiado grande. Máximo 16MB" } _ _
        (by decide) hon.1 rfl
    · have hcond : Js.startsWith file.type "image/" = true ∧ file.size ≤ 16 * 1024 * 1024 :=
        ⟨htype, by omega⟩
      rw [if_pos hcond]
      simp only [htype, Bool.not_true, Bool.false_eq_true, if_false, hsize]
      exact ⟨hon.1, hon.2⟩
  · have hcond : ¬ (Js.startsWith file.type "image/" = true ∧ file.size ≤ 16 * 1024 * 1024) :=
      fun h => htype h.1
    have hfalse : Js.startsWith file.type "image/" = false := by
      cases h : Js.startsWith file.type "image/"
      · rfl
      · exact absurd h htype
    rw [if_neg hcond]
    simp only [hfalse, Bool.not_false, if_true]
    exact onScreen_of_showScreen _
      { f.page with errorMessage := "Por favor selecciona un archivo de imagen válido" } _ _
      (by decide) hon.1 rfl

/-- The screen `startAnalysis` leaves when it returns or waits for the response:
Loading when a file is selected, Error when none is. -/
theorem startAnalysisSend_onScreen (start : Int) (f : Flow) (a : String)
    (hon : Flow.onScreen f a) :
    Flow.onScreen
      { page := (startAnalysisSend start f.page).1
        inFlight := if (startAnalysisSend start f.page).2 then f.inFlight + 1 else f.inFlight }
      (if f.page.selectedFile.isSome = true then "loadingSection" else "errorSection") := by
  unfold startAnalysisSend
  cases hfile : f.page.selectedFile with
  | none =>
    simp only [Option.isNone_none, if_true, Option.isSome_none, Bool.false_eq_true, if_false]
    exact onScreen_of_showScreen _
      { f.page with errorMessage := "Por favor selecciona una imagen primero" } _ _
      (by decide) hon.1 rfl
  | some file =>
    simp only [Option.isNone_some, Bool.false_eq_true, if_false, Option.isSome_some, if_true]
    exact onScreen_of_showScreen _ { f.page with processingStartTime := start } _ _
      (by decide) hon.1 rfl

/-- The screen the end of a request leaves: Results or Error. -/
theorem completion_onScreen (f : Flow) (a : String) (outcome : FetchOutcome ImageResult)
    (now : Int) (random : Nat) (hon : Flow.onScreen f a) :
    Flow.onScreen (f.step (.completion outcome now random)) "resultsSection" ∨
    Flow.onScreen (f.step (.completion outcome now random)) "errorSection" := by
  rcases startAnalysisDeliver_dom outcome now random f.page with h | h
  · exact Or.inr (onScreen_of_showScreen _ f.page _ _ (by decide) hon.1 h)
  · exact Or.inl (onScreen_of_showScreen _ f.page _ _ (by decide) hon.1 h)

/-- C12 as stated, refuted on four steps, none of them one of the five changes of
screen of the diagram.  On the page as loaded (Upload) the file `notas.txt` is
selected: the Error screen is shown, without passing through Loading.  On the
Error screen with a file selected, retry is pressed: the Loading screen is shown,
entered from Error.  On the Loading screen, with the request in flight,
`resetToUpload` runs: the Upload screen is shown, entered from Loading, and the
request stays in flight.  Its response then arrives: the Results screen is shown,
entered from Upload. -/
theorem flow_leaves_diagram :
    currentScreen initialFlow.page.dom = some "uploadSection" ∧
    currentScreen (initialFlow.step (.selectFile textFile)).page.dom = some "errorSection" ∧
    ("uploadSection", "errorSection") ∉ diagramTransitions ∧
    currentScreen errorWithFile.page.dom = some "errorSection" ∧
    currentScreen (errorWithFile.step (.retry 0)).page.dom = some "loadingSection" ∧
    ("errorSection", "loadingSection") ∉ diagramTransitions ∧
    currentScreen loadingFlow.page.dom = some "loadingSection" ∧
    loadingFlow.inFlight = 1 ∧
    currentScreen (loadingFlow.step .reset).page.dom = some "uploadSection" ∧
    (loadingFlow.step .reset).inFlight = 1 ∧
    ("loadingSection", "uploadSection") ∉ diagramTransitions ∧
    currentScreen ((loadingFlow.step .reset).step (.completion twoResults 1500 42)).page.dom =
      some "resultsSection" ∧
    ("uploadSection", "resultsSection") ∉ diagramTransitions := by
  decide

/-- C12, amended.  The page as loaded is on Upload.  Each event fixes the screen it
leaves on show, whatever screen `a` was on show before it: the selection of a file
leaves `a` when the file is accepted and Error when it is rejected; remove leaves
`a`; analyze and retry leave Loading when a file is selected and Error when none
is; reset leaves Upload; the end of a request leaves Results or Error.  So a
change of screen to Results happens only at the end of a request, to Loading only
by analyze or retry with a file selected, to Upload only by reset, and to Error
only by a rejected file, by analyze or retry with no file selected, or at the end
of a request. -/
theorem flow_transitions :
    Flow.onScreen initialFlow "uploadSection" ∧
    (∀ (f : Flow) (a : String), Flow.onScreen f a →
      (∀ file, Flow.onScreen (f.step (.selectFile file))
        (if Js.startsWith file.type "image/" = true ∧ file.size ≤ 16 * 1024 * 1024 then a
         else "errorSection")) ∧
      Flow.onScreen (f.step .remove) a ∧
      (∀ start, Flow.onScreen (f.step (.analyze start))
        (if f.page.selectedFile.isSome = true then "loadingSection" else "errorSection")) ∧
      (∀ start, Flow.onScreen (f.step (.retry start))
        (if f.page.selectedFile.isSome = true then "loadingSection" else "errorSection")) ∧
      Flow.onScreen (f.step .reset) "uploadSection" ∧
      (∀ outcome now random,
        Flow.onScreen (f.step (.completion outcome now random)) "resultsSection" ∨
        Flow.onScreen (f.step (.completion outcome now random)) "errorSection")) ∧
    (∀ (f : Flow) (a b : String) (e : FlowEvent),
      Flow.onScreen f a → Flow.onScreen (f.step e) b → b ≠ a →
      (b = "resultsSection" → ∃ outcome now random, e = .completion outcome now random) ∧
      (b = "loadingSection" →
        ((∃ start, e = .analyze start) ∨ (∃ start, e = .retry start)) ∧
        f.page.selectedFile.isSome = true) ∧
      (b = "uploadSection" → e = .reset) ∧
      (b = "errorSection" →
        (∃ file, e = .selectFile file ∧
          ¬ (Js.startsWith file.type "image/" = true ∧ file.size ≤ 16 * 1024 * 1024)) ∨
        ((∃ start, e = .analyze start) ∨ (∃ start, e = .retry start)) ∧
          f.page.selectedFile.isSome = false ∨
        (∃ outcome now random, e = .completion outcome now random))) := by
  have hremove : ∀ (f : Flow) (a : String), Flow.onScreen f a → Flow.onScreen (f.step .remove) a :=
    fun f a hon => ⟨hon.1, hon.2⟩
  have hreset : ∀ (f : Flow) (a : String), Flow.onScreen f a →
      Flow.onScreen (f.step .reset) "uploadSection" :=
    fun f a hon => onScreen_of_showScreen _ f.page _ _ (by decide) hon.1 rfl
  refine ⟨⟨by decide, by decide⟩, ?_, ?_⟩
  · intro f a hon
    exact ⟨fun file => selectFile_onScreen f a file hon, hremove f a hon,
      fun start => startAnalysisSend_onScreen start f a hon,
      fun start => startAnalysisSend_onScreen start f a hon,
      hreset f a hon,
      fun outcome now random => completion_onScreen f a outcome now random hon⟩
  · intro f a b e hon hb hne
    cases e with
    | selectFile file =>
      have hto := onScreen_unique _ _ _ hb (selectFile_onScreen f a file hon)
      by_cases hcond : Js.startsWith file.type "image/" = true ∧ file.size ≤ 16 * 1024 * 1024
      · rw [if_pos hcond] at hto
        exact absurd hto hne
      · rw [if_neg hcond] at hto
        subst hto
        exact ⟨fun h => absurd h (by decide), fun h => absurd h (by decide),
          fun h => absurd h (by decide), fun _ => Or.inl ⟨file, rfl, hcond⟩⟩
    | remove => exact absurd (onScreen_unique _ _ _ hb (hremove f a hon)) hne
    | analyze start =>
      have hto := onScreen_unique _ _ _ hb (startAnalysisSend_onScreen start f a hon)
      cases hfile : f.page.selectedFile.isSome
      · rw [hfile, if_neg (by decide)] at hto
        subst hto
        exact ⟨fun h => absurd h (by decide), fun h => absurd h (by decide),
          fun h => absurd h (by decide), fun _ => Or.inr (Or.inl ⟨Or.inl ⟨start, rfl⟩, rfl⟩)⟩
      · rw [hfile, if_pos rfl] at hto
        subst hto
        exact ⟨fun h => absurd h (by decide), fun _ => ⟨Or.inl ⟨start, rfl⟩, rfl⟩,
          fun h => absurd h (by decide), fun h => absurd h (by decide)⟩
    | retry start =>
      have hto := onScreen_unique _ _ _ hb (startAnalysisSend_onScreen start f a hon)
      cases hfile : f.page.selectedFile.isSome
      · rw [hfile, if_neg (by decide)] at hto
        subst hto
        exact ⟨fun h => absurd h (by decide), fun h => absurd h (by decide),
          fun h => absurd h (by decide), fun _ => Or.inr (Or.inl ⟨Or.inr ⟨start, rfl⟩, rfl⟩)⟩
      · rw [hfile, if_pos rfl] at hto
        subst hto
        exact ⟨fun h => absurd h (by decide), fun _ => ⟨Or.inr ⟨start, rfl⟩, rfl⟩,
          fun h => absurd h (by decide), fun h => absurd h (by decide)⟩
    | reset =>
      have hto := onScreen_unique _ _ _ hb (hreset f a hon)
      subst hto
      exact ⟨fun h => absurd h (by decide), fun h => absurd h (by decide), fun _ => rfl,
        fun h => absurd h (by decide)⟩
    | completion outcome now random =>
      rcases completion_onScreen f a outcome now random hon with h | h
      · have hto := onScreen_unique _ _ _ hb h
        subst hto
        exact ⟨fun _ => ⟨outcome, now, random, rfl⟩, fun h => absurd h (by decide),
          fun h => absurd h (by decide), fun h => absurd h (by decide)⟩
      · have hto := onScreen_unique _ _ _ hb h
        subst hto
        exact ⟨fun h => absurd h (by decide), fun h => absurd h (by decide),
          fun h => absurd h (by decide), fun _ => Or.inr (Or.inr ⟨outcome, now, random, rfl⟩)⟩

end ImageHandler

/-! ## The library page: page window and page number -/

namespace BiblioPage

theorem range_filterMap_get {α β : Type} (f : α → β) (l : List α) (n a : Nat)
    (h : a + n ≤ l.length) :
    (List.range n).filterMap (fun k => (l.get? (a + k)).map f) = ((l.drop a).take n).map f := by
  induction n generalizing a with
  | zero => simp
  | succ n ih =>
    have ha : a < l.length := by omega
    rw [List.range_succ_eq_map, List.filterMap_cons, List.filterMap_map]
    have hget : l.get? (a + 0) = some l[a] := by
      simp [List.getElem?_eq_getElem ha]
    rw [hget]
    simp only [Option.map_some']
    rw [List.drop_eq_getElem_cons ha, List.take_succ_cons, List.map_cons]
    congr 1
    have := ih (a + 1) (by omega)
    rw [← this]
    apply List.filterMap_congr
    intro k _
    simp only [Function.comp]
    congr 2
    omega

theorem renderLoop_nat (ks : List Nat) (s : PageState)
    (h : ∀ k ∈ ks, k < s.resultados.length) :
    renderLoop (ks.map (fun (k : Nat) => (k : Int))) s =
      .ok { s with lista := s.lista ++ ks.filterMap (fun k => (s.resultados.get? k).map crearItem) } := by
  induction ks generalizing s with
  | nil => simp [renderLoop]
  | cons k rest ih =>
    have hk : k < s.resultados.length := h k (List.mem_cons_self k rest)
    have hget : s.resultados.get? k = some s.resultados[k] := by
      simp [List.getElem?_eq_getElem hk]
    have hat : resultadoAt s.resultados (k : Int) = some s.resultados[k] := by
      unfold resultadoAt
      simp [hget]
    simp only [List.map_cons, renderLoop, renderOne, hat]
    rw [ih { s with lista := s.lista ++ [crearItem s.resultados[k]] }
      (fun j hj => h j (List.mem_cons_of_mem k hj))]
    have hget2 : s.resultados[k]? = some s.resultados[k] := List.getElem?_eq_getElem hk
    simp [List.filterMap_cons, hget2]

theorem indices_nat (a len : Nat) :
    indices (a : Int) (min ((a : Int) + 5) (len : Int)) =
      ((List.range (min (a + 5) len - a)).map (fun k => a + k)).map (fun (k : Nat) => (k : Int)) := by
  unfold indices
  have h : (min ((a : Int) + 5) (len : Int) - (a : Int)).toNat = min (a + 5) len - a := by omega
  rw [h, List.map_map]
  apply List.map_congr_left
  intro k _
  simp

/-- For a page number from 1 on, `mostrarResultados` returns, with the list holding
the five results from index `(p - 1) * 5` on, or those that are left. -/
theorem mostrarResultados_of_pos (s : PageState) (p : Nat) (hp : 1 ≤ p)
    (hs : s.paginaActual = (p : Int)) :
    mostrarResultados s = .ok (mostrarPaginacion
      { s with lista := ((s.resultados.drop ((p - 1) * 5)).take 5).map crearItem }) := by
  have hinicio : (s.paginaActual - 1) * (resultadosPorPagina : Int) = (((p - 1) * 5 : Nat) : Int) := by
    rw [hs]
    simp only [resultadosPorPagina]
    push_cast [Nat.cast_sub hp]
    ring
  unfold mostrarResultados
  simp only [hinicio]
  have hfin : ((((p - 1) * 5 : Nat) : Int) + (resultadosPorPagina : Int)) =
      (((p - 1) * 5 : Nat) : Int) + 5 := by
    simp [resultadosPorPagina]
  rw [hfin, indices_nat]
  rw [renderLoop_nat]
  · simp only [List.nil_append, List.filterMap_map]
    have hcomp : (fun k => Option.map crearItem (s.resultados.get? k)) ∘ (fun k => (p - 1) * 5 + k) =
        fun k => Option.map crearItem (s.resultados.get? ((p - 1) * 5 + k)) := rfl
    rw [hcomp]
    by_cases hlen : (p - 1) * 5 ≤ s.resultados.length
    · have hwin := range_filterMap_get crearItem s.resultados
        (min ((p - 1) * 5 + 5) s.resultados.length - (p - 1) * 5) ((p - 1) * 5) (by omega)
      have htake : List.take (min ((p - 1) * 5 + 5) s.resultados.length - (p - 1) * 5)
          (s.resultados.drop ((p - 1) * 5)) = List.take 5 (s.resultados.drop ((p - 1) * 5)) := by
        rw [List.take_eq_take, List.length_drop]
        omega
      rw [htake] at hwin
      rw [hwin]
    · have hzero : min ((p - 1) * 5 + 5) s.resultados.length - (p - 1) * 5 = 0 := by omega
      have hdrop : s.resultados.drop ((p - 1) * 5) = [] := by
        apply List.drop_eq_nil_of_le
        omega
      rw [hzero, hdrop]
      rfl
  · intro k hk
    simp only [List.mem_map, List.mem_range] at hk
    obtain ⟨j, hj, rfl⟩ := hk
    show (p - 1) * 5 + j < s.resultados.length
    omega

theorem mostrarPaginacion_eq (s : PageState) :
    mostrarPaginacion s =
      { s with paginacion :=
          if totalPaginas s ≤ 1 then []
          else (if s.paginaActual > 1 then [BotonPagina.anterior] else []) ++
            (if s.paginaActual < totalPaginas s then [BotonPagina.siguiente] else []) } := by
  unfold mostrarPaginacion
  have ht : ∀ l : List BotonPagina, totalPaginas { s with paginacion := l } = totalPaginas s :=
    fun _ => rfl
  simp only [ht]
  by_cases h1 : totalPaginas s ≤ 1
  · simp [h1]
  · by_cases h2 : s.paginaActual > 1
    · by_cases h3 : s.paginaActual < (totalPaginas s : Int)
      · simp [h1, h2, h3, ht]
      · simp [h1, h2, h3, ht]
    · by_cases h3 : s.paginaActual < (totalPaginas s : Int)
      · simp [h1, h2, h3, ht]
      · simp [h1, h2, h3, ht]

theorem pages_flatMap {α β : Type} (f : α → β) (n : Nat) (l : List α) (h : l.length ≤ 5 * n) :
    (List.range n).flatMap (fun k => ((l.drop (k * 5)).take 5).map f) = l.map f := by
  induction n generalizing l with
  | zero =>
    have : l = [] := List.eq_nil_of_length_eq_zero (by omega)
    simp [this]
  | succ n ih =>
    rw [List.range_succ_eq_map, List.flatMap_cons, List.flatMap_map]
    have hrest := ih (l.drop 5) (by rw [List.length_drop]; omega)
    have hshift : (fun k => ((l.drop (Nat.succ k * 5)).take 5).map f) =
        fun k => (((l.drop 5).drop (k * 5)).take 5).map f := by
      funext k
      rw [List.drop_drop]
      congr 3
      omega
    rw [hshift, hrest]
    simp only [Nat.zero_mul, List.drop_zero]
    rw [← List.map_append, List.take_append_drop]

/-- C15. Library page.  For a page number `p` from 1 on, `mostrarResultados` returns
and the list holds one `div.resultado-item` for each result with index from
`(p - 1) * 5` up to, not including, the smaller of `p * 5` and the length, in list
order: at most five, each with the markup of its own image and title and the click
target of its own id.  The pages 1 to `ceil(L / 5)` put one after the other hold
one such `div` for each result of the list, in list order. -/
theorem mostrarResultados_window (s : PageState) (p : Nat) (hp : 1 ≤ p)
    (hs : s.paginaActual = (p : Int)) :
    ∃ s', mostrarResultados s = .ok s' ∧
      s'.lista =
        ((s.resultados.take (min (p * 5) s.resultados.length)).drop ((p - 1) * 5)).map
          (fun res =>
            { className := "resultado-item"
              innerHTML := "<img src=\"" ++ res.imagen ++ "\" title=\"" ++ res.titulo ++
                "\" style=\"width:100px;cursor:pointer;\">"
              documento := res.id }) ∧
      s'.lista.length =
        min (p * 5) s.resultados.length - min ((p - 1) * 5) s.resultados.length ∧
      s'.lista.length ≤ 5 ∧
      s'.lista.map (fun item => item.documento) =
        ((s.resultados.take (min (p * 5) s.resultados.length)).drop ((p - 1) * 5)).map
          (fun res => res.id) ∧
      (List.range (totalPaginas s)).flatMap (fun k => paginaMostrada s ((k : Int) + 1)) =
        s.resultados.map
          (fun res =>
            { className := "resultado-item"
              innerHTML := "<img src=\"" ++ res.imagen ++ "\" title=\"" ++ res.titulo ++
                "\" style=\"width:100px;cursor:pointer;\">"
              documento := res.id }) := by
  have hslice : (s.resultados.take (min (p * 5) s.resultados.length)).drop ((p - 1) * 5) =
      (s.resultados.drop ((p - 1) * 5)).take 5 := by
    rw [List.drop_take, List.take_eq_take, List.length_drop]
    omega
  refine ⟨_, mostrarResultados_of_pos s p hp hs, ?_, ?_, ?_, ?_, ?_⟩
  · rw [mostrarPaginacion_eq, hslice]
    rfl
  · rw [mostrarPaginacion_eq]
    simp only [List.length_map, List.length_take, List.length_drop]
    omega
  · rw [mostrarPaginacion_eq]
    simp only [List.length_map, List.length_take]
    omega
  · rw [mostrarPaginacion_eq, hslice]
    simp only [List.map_map]
    rfl
  · have hpage : ∀ k : Nat, paginaMostrada s ((k : Int) + 1) =
        ((s.resultados.drop (k * 5)).take 5).map crearItem := by
      intro k
      unfold paginaMostrada
      rw [mostrarResultados_of_pos { s with paginaActual := (k : Int) + 1 } (k + 1) (by omega)
        (by show (k : Int) + 1 = ((k + 1 : Nat) : Int); push_cast; rfl)]
      rw [mostrarPaginacion_eq]
      simp [Js.settle]
    simp only [hpage]
    show _ = s.resultados.map crearItem
    apply pages_flatMap
    unfold totalPaginas resultadosPorPagina
    omega

/-- C15 on twelve results: page 3 holds the two `div`s of the results 11 and 12, and
the three pages together hold the twelve in order. -/
theorem mostrarResultados_window_witness :
    (1 : Nat) ≤ 3 ∧
    ∃ s', mostrarResultados { initialState with resultados := doceResultados, paginaActual := 3 } =
        .ok s' ∧
      s'.lista =
        [ { className := "resultado-item"
            innerHTML := "<img src=\"/static/img.png\" title=\"Libro\" style=\"width:100px;cursor:pointer;\">"
            documento := 11 },
          { className := "resultado-item"
            innerHTML := "<img src=\"/static/img.png\" title=\"Libro\" style=\"width:100px;cursor:pointer;\">"
            documento := 12 } ] ∧
      (List.range (totalPaginas { initialState with resultados := doceResultados, paginaActual := 3 })).flatMap
          (fun k => paginaMostrada
            { initialState with resultados := doceResultados, paginaActual := 3 } ((k : Int) + 1)) =
        doceResultados.map crearItem := by
  obtain ⟨s', hrun, hlista, -, -, -, hall⟩ :=
    mostrarResultados_window { initialState with resultados := doceResultados, paginaActual := 3 } 3
      (by decide) rfl
  exact ⟨by decide, s', hrun, hlista.trans (by decide), hall⟩

/-- The buttons `mostrarPaginacion` draws: `Anterior` exactly when there is more
than one page and the page number is above 1, `Siguiente` exactly when there is
more than one page and the page number is below the number of pages. -/
theorem mem_mostrarPaginacion (s : PageState) :
    (BotonPagina.anterior ∈ (mostrarPaginacion s).paginacion ↔
      1 < totalPaginas s ∧ 1 < s.paginaActual) ∧
    (BotonPagina.siguiente ∈ (mostrarPaginacion s).paginacion ↔
      1 < totalPaginas s ∧ s.paginaActual < (totalPaginas s : Int)) := by
  rw [mostrarPaginacion_eq]
  by_cases h1 : totalPaginas s ≤ 1
  · have h1' : ¬ 1 < totalPaginas s := by omega
    simp [h1, h1']
  · have h1' : 1 < totalPaginas s := by omega
    by_cases h2 : s.paginaActual > 1 <;> by_cases h3 : s.paginaActual < (totalPaginas s : Int) <;>
      simp [h1, h1', h2, h3]

theorem paginaValida_of_drawn (t s' : PageState)
    (hres : s'.resultados = t.resultados) (hpag : s'.paginaActual = t.paginaActual)
    (hbot : s'.paginacion = (mostrarPaginacion t).paginacion)
    (hlow : 1 ≤ t.paginaActual) (hhigh : t.paginaActual ≤ max 1 (totalPaginas t)) :
    paginaValida s' := by
  have htotal : totalPaginas s' = totalPaginas t := by
    unfold totalPaginas
    rw [hres]
  refine ⟨by rw [hpag]; exact hlow, by rw [hpag, htotal]; exact hhigh, ?_⟩
  rw [hbot, mostrarPaginacion_eq, mostrarPaginacion_eq]
  simp only [htotal, hpag]

theorem mostrarResultados_valida (s : PageState) (hlow : 1 ≤ s.paginaActual)
    (hhigh : s.paginaActual ≤ max 1 (totalPaginas s)) :
    ∃ s', mostrarResultados s = .ok s' ∧ s'.resultados = s.resultados ∧
      s'.paginaActual = s.paginaActual ∧ paginaValida s' := by
  have hrun := mostrarResultados_of_pos s s.paginaActual.toNat (by omega) (by omega)
  refine ⟨_, hrun, ?_, ?_, ?_⟩
  · rw [mostrarPaginacion_eq]
  · rw [mostrarPaginacion_eq]
  · exact paginaValida_of_drawn
      { s with lista := ((s.resultados.drop ((s.paginaActual.toNat - 1) * 5)).take 5).map crearItem }
      _ (by rw [mostrarPaginacion_eq]) (by rw [mostrarPaginacion_eq]) rfl hlow hhigh

/-- C16. Library page.  When a search completes, the handler returns with page
number 1 and a valid page: the number lies between 1 and the number of pages (1
when there are none) and the buttons on the page are those drawn for it.  A click
on a button of a valid page returns with a valid page over the same results.  On a
valid page `Anterior` is present exactly when there is more than one page and the
number is above 1, `Siguiente` exactly when there is more than one page and the
number is below the number of pages. -/
theorem paginaValida_preserved :
    (∀ (data : List Resultado) (s : PageState),
      ∃ s', busquedaCompleta data s = .ok s' ∧ s'.resultados = data ∧ s'.paginaActual = 1 ∧
        paginaValida s') ∧
    (∀ (s : PageState) (b : BotonPagina), paginaValida s → b ∈ s.paginacion →
      ∃ s', clickBoton b s = .ok s' ∧ s'.resultados = s.resultados ∧ paginaValida s') ∧
    (∀ s : PageState, paginaValida s →
      (BotonPagina.anterior ∈ s.paginacion ↔ 1 < totalPaginas s ∧ 1 < s.paginaActual) ∧
      (BotonPagina.siguiente ∈ s.paginacion ↔
        1 < totalPaginas s ∧ s.paginaActual < (totalPaginas s : Int))) := by
  refine ⟨?_, ?_, ?_⟩
  · intro data s
    obtain ⟨s', hrun, hres, hpag, hval⟩ := mostrarResultados_valida
      { s with resultados := data, paginaActual := 1 } (by simp) (by simp)
    refine ⟨{ cambiarVideo "/static/video/resultado.mp4" s' with
        buscadorDisplay := "none", resultadosDisplay := "block" }, ?_, hres, hpag, ?_⟩
    · unfold busquedaCompleta
      simp only [hrun]
    · exact paginaValida_of_drawn s' _ rfl rfl hval.2.2 hval.1 hval.2.1
  · intro s b hval hb
    rw [hval.2.2] at hb
    have hmem := mem_mostrarPaginacion s
    have hlow := hval.1
    have hhigh := hval.2.1
    cases b with
    | anterior =>
      have hcond := hmem.1.mp hb
      obtain ⟨s', hrun, hres, _, hval'⟩ := mostrarResultados_valida
        { s with paginaActual := s.paginaActual - 1 }
        (by show 1 ≤ s.paginaActual - 1; omega)
        (by
          show s.paginaActual - 1 ≤ ((max 1 (totalPaginas s) : Nat) : Int)
          omega)
      exact ⟨s', hrun, hres, hval'⟩
    | siguiente =>
      have hcond := hmem.2.mp hb
      obtain ⟨s', hrun, hres, _, hval'⟩ := mostrarResultados_valida
        { s with paginaActual := s.paginaActual + 1 }
        (by show 1 ≤ s.paginaActual + 1; omega)
        (by
          show s.paginaActual + 1 ≤ ((max 1 (totalPaginas s) : Nat) : Int)
          omega)
      exact ⟨s', hrun, hres, hval'⟩
  · intro s hval
    rw [hval.2.2]
    exact mem_mostrarPaginacion s

/-- C16 on twelve results: the search ends on page 1 of 3 with `Siguiente` alone;
clicking it gives a valid page 2. -/
theorem paginaValida_preserved_witness :
    (∃ s', busquedaCompleta doceResultados initialState = .ok s' ∧ s'.resultados = doceResultados ∧
      s'.paginaActual = 1 ∧ paginaValida s') ∧
    (Js.settle (busquedaCompleta doceResultados initialState)).paginacion = [.siguiente] ∧
    (Js.settle (clickBoton .siguiente
      (Js.settle (busquedaCompleta doceResultados initialState)))).paginaActual = 2 ∧
    (Js.settle (clickBoton .siguiente
      (Js.settle (busquedaCompleta doceResultados initialState)))).paginacion =
      [.anterior, .siguiente] :=
  ⟨paginaValida_preserved.1 doceResultados initialState, by decide, by decide, by decide⟩

end BiblioPage

/-! ## File sizes (`formatFileSize`) -/

namespace AudioHandler

/-- With enough divisions allowed, `floorLog` brackets `n` between two consecutive
powers of `k`. -/
theorem floorLog_bounds (k : Nat) (hk : 2 ≤ k) (fuel n : Nat) (hn : 1 ≤ n) (hfuel : n ≤ fuel) :
    k ^ floorLog k fuel n ≤ n ∧ n < k ^ (floorLog k fuel n + 1) := by
  induction fuel generalizing n with
  | zero => omega
  | succ fuel ih =>
    unfold floorLog
    by_cases hlt : n < k
    · simp only [hlt, if_true]
      constructor
      · simpa using hn
      · simpa using hlt
    · simp only [hlt, if_false]
      have hkn : k ≤ n := Nat.le_of_not_lt hlt
      have hq1 : 1 ≤ n / k := (Nat.one_le_div_iff (by omega)).mpr hkn
      have hq2 : n / k ≤ fuel := by
        have : n / k < n := Nat.div_lt_self (by omega) (by omega)
        omega
      obtain ⟨h1, h2⟩ := ih (n / k) hq1 hq2
      constructor
      · calc k ^ (floorLog k fuel (n / k) + 1) = k ^ floorLog k fuel (n / k) * k := pow_succ _ _
          _ ≤ n / k * k := Nat.mul_le_mul_right k h1
          _ ≤ n := Nat.div_mul_le_self n k
      · rw [pow_succ]
        exact (Nat.div_lt_iff_lt_mul (by omega)).mp h2

theorem floorLog_unique (k : Nat) (hk : 2 ≤ k) (n i j : Nat)
    (hi : k ^ i ≤ n ∧ n < k ^ (i + 1)) (hj : k ^ j ≤ n ∧ n < k ^ (j + 1)) : j = i := by
  have hmono : ∀ a b : Nat, k ^ a ≤ n → n < k ^ (b + 1) → a ≤ b := by
    intro a b ha hb
    have hlt : k ^ a < k ^ (b + 1) := lt_of_le_of_lt ha hb
    have := (Nat.pow_lt_pow_iff_right (by omega : 1 < k)).mp hlt
    omega
  have h1 := hmono i j hi.1 hj.2
  have h2 := hmono j i hj.1 hi.2
  omega

theorem formatFileSize_eq (bytes : Nat) (h : 1 ≤ bytes) :
    formatFileSize bytes =
      showHundredths ((2 * 100 * bytes + 1024 ^ floorLog 1024 bytes bytes) /
          (2 * 1024 ^ floorLog 1024 bytes bytes)) ++ " " ++
        (["Bytes", "KB", "MB", "GB"].get? (floorLog 1024 bytes bytes)).getD "undefined" := by
  unfold formatFileSize
  have h0 : ¬ bytes = 0 := by omega
  simp only [h0, if_false]

/-- C18. Audio variant, over exact arithmetic.  `formatFileSize(0)` is `0 Bytes`.
For `1 ≤ b < 1024^4` there are `i < 4` and `n` such that `1024^i ≤ b < 1024^(i+1)`
(and `i` is the only such index), `n` is `100 * b / 1024^i` rounded to the nearest
integer, a tie going up, and the result is `n / 100` printed without trailing
zeros, a blank, and `sizes[i]`.  For `b ≥ 1024^4` the index is at least 4, the
table has no such entry, and the unit prints as `undefined`. -/
theorem formatFileSize_unit :
    formatFileSize 0 = "0 Bytes" ∧
    (∀ b : Nat, 1 ≤ b → b < 1024 ^ 4 →
      ∃ (i n : Nat) (unit : String), i < 4 ∧ 1024 ^ i ≤ b ∧ b < 1024 ^ (i + 1) ∧
        (∀ j, 1024 ^ j ≤ b → b < 1024 ^ (j + 1) → j = i) ∧
        2 * 1024 ^ i * n ≤ 2 * 100 * b + 1024 ^ i ∧
        2 * 100 * b + 1024 ^ i < 2 * 1024 ^ i * (n + 1) ∧
        ["Bytes", "KB", "MB", "GB"].get? i = some unit ∧
        formatFileSize b = showHundredths n ++ " " ++ unit) ∧
    (∀ b : Nat, 1024 ^ 4 ≤ b →
      ∃ i n : Nat, 4 ≤ i ∧ 1024 ^ i ≤ b ∧ b < 1024 ^ (i + 1) ∧
        ["Bytes", "KB", "MB", "GB"].get? i = none ∧
        formatFileSize b = showHundredths n ++ " " ++ "undefined") := by
  have hround : ∀ b i : Nat,
      2 * 1024 ^ i * ((2 * 100 * b + 1024 ^ i) / (2 * 1024 ^ i)) ≤ 2 * 100 * b + 1024 ^ i ∧
      2 * 100 * b + 1024 ^ i < 2 * 1024 ^ i * ((2 * 100 * b + 1024 ^ i) / (2 * 1024 ^ i) + 1) := by
    intro b i
    have hpos : 0 < 2 * 1024 ^ i := by positivity
    exact ⟨Nat.mul_div_le _ _, Nat.lt_mul_div_succ _ hpos⟩
  refine ⟨rfl, ?_, ?_⟩
  · intro b h1 h4
    obtain ⟨hlow, hhigh⟩ := floorLog_bounds 1024 (by norm_num) b b h1 (le_refl b)
    have hi : floorLog 1024 b b < 4 := by
      have hlt : 1024 ^ floorLog 1024 b b < 1024 ^ 4 := lt_of_le_of_lt hlow h4
      exact (Nat.pow_lt_pow_iff_right (by norm_num : 1 < 1024)).mp hlt
    have hunit : ∃ unit, ["Bytes", "KB", "MB", "GB"].get? (floorLog 1024 b b) = some unit := by
      generalize floorLog 1024 b b = i at hi
      interval_cases i <;> exact ⟨_, rfl⟩
    obtain ⟨unit, hunit⟩ := hunit
    refine ⟨floorLog 1024 b b, _, unit, hi, hlow, hhigh, ?_, (hround b _).1, (hround b _).2, hunit, ?_⟩
    · intro j hj1 hj2
      exact floorLog_unique 1024 (by norm_num) b _ j ⟨hlow, hhigh⟩ ⟨hj1, hj2⟩
    · rw [formatFileSize_eq b h1, hunit]
      rfl
  · intro b h4
    have h1 : 1 ≤ b := le_trans (by norm_num) h4
    obtain ⟨hlow, hhigh⟩ := floorLog_bounds 1024 (by norm_num) b b h1 (le_refl b)
    have hi : 4 ≤ floorLog 1024 b b := by
      have hlt : 1024 ^ 4 < 1024 ^ (floorLog 1024 b b + 1) := lt_of_le_of_lt h4 hhigh
      have := (Nat.pow_lt_pow_iff_right (by norm_num : 1 < 1024)).mp hlt
      omega
    have hnone : ["Bytes", "KB", "MB", "GB"].get? (floorLog 1024 b b) = none := by
      apply List.get?_eq_none.mpr
      simpa using hi
    refine ⟨floorLog 1024 b b,
      (2 * 100 * b + 1024 ^ floorLog 1024 b b) / (2 * 1024 ^ floorLog 1024 b b),
      hi, hlow, hhigh, hnone, ?_⟩
    rw [formatFileSize_eq b h1, hnone]
    rfl

/-- C18 on three sizes: 1536 bytes print as `1.5 KB`, 5 MiB as `5 MB`, and 1024^4
bytes, past the table, as `1 undefined`. -/
theorem formatFileSize_unit_witness :
    formatFileSize 0 = "0 Bytes" ∧ formatFileSize 1536 = "1.5 KB" ∧
    formatFileSize (5 * 1024 * 1024) = "5 MB" ∧ formatFileSize (1024 ^ 4) = "1 undefined" ∧
    (∃ (i n : Nat) (unit : String), i < 4 ∧ 1024 ^ i ≤ 1536 ∧ 1536 < 1024 ^ (i + 1) ∧
      (∀ j, 1024 ^ j ≤ 1536 → 1536 < 1024 ^ (j + 1) → j = i) ∧
      2 * 1024 ^ i * n ≤ 2 * 100 * 1536 + 1024 ^ i ∧
      2 * 100 * 1536 + 1024 ^ i < 2 * 1024 ^ i * (n + 1) ∧
      ["Bytes", "KB", "MB", "GB"].get? i = some unit ∧
      formatFileSize 1536 = showHundredths n ++ " " ++ unit) :=
  ⟨formatFileSize_unit.1, by decide, by decide, by decide,
    formatFileSize_unit.2.1 1536 (by norm_num) (by norm_num)⟩

end AudioHandler

/-! ## The flow of the image page on the page as loaded -/

namespace ImageHandler

/-- C12, amended, on the page as loaded (Upload, no file selected): analyze leaves
the Error screen, and reset leaves Upload. -/
theorem flow_transitions_witness :
    Flow.onScreen initialFlow "uploadSection" ∧
    Flow.onScreen (initialFlow.step (.analyze 0)) "errorSection" ∧
    Flow.onScreen (initialFlow.step .reset) "uploadSection" :=
  ⟨flow_transitions.1,
   (flow_transitions.2.1 initialFlow "uploadSection" flow_transitions.1).2.2.1 0,
   (flow_transitions.2.1 initialFlow "uploadSection" flow_transitions.1).2.2.2.2.1⟩

end ImageHandler
